import Mathlib

/-!
The turf-go transformations: polygon intersection and circle construction.

A shallow embedding of `transformation/intersect.go` and
`transformation/circle.go`.

Modelling conventions

* `float64` values are exact rationals; the rounding of a `float64` sum or
  product is not modelled.  Comparisons, min/max selections and negation are
  exact on finite floats, and rounding is monotone.  The claims on `float64`
  results are stated so as to hold also when every operation is read as the
  `float64` operation of the source: they use no other law of arithmetic, or
  they are restricted to values on which the operations are exact (small
  integers, as in the concrete evaluations below).  The lemmas on the
  shoelace sum are laws of exact arithmetic and serve under that restriction.
* A Go slice is a `List`; a `nil` slice and an empty slice are both `[]`
  (the source only ever inspects them through `len` and `range`).  Where the
  source tests a slice against `nil`, the result is an `Option`.
* A Go `(value, error)` pair is `Except String value`.  A call that can end
  in a run-time panic (a nil pointer dereference) has an `Outcome`: the
  returned pair, or the panic.
* A Go `interface{}` value is a `Dyn`, which records the dynamic type.
* The external geojson library (`ToPolygon`, `ToMultiPolygon`, `feature.New`)
  is not part of the repository; it is a parameter `GeoLib` of the embedding.
* The unit conversion, the point accessors and `math.Pi`, `math.Cos`,
  `math.Sin` are likewise parameters, bundled in `CircleLib`.
* A pointer argument that the callee writes through (`*CircleOptions`) is
  passed as a value and returned as part of the result.
-/

namespace Turf

/-! ## Data model (external geojson library types) -/

/-- Go `geometry.Point`. -/
structure Point where
  Lat : ℚ
  Lng : ℚ
deriving DecidableEq, Repr

/-- Go `geometry.LineString`. -/
structure LineString where
  Coordinates : List Point
deriving DecidableEq, Repr

/-- Go `geometry.Polygon`: ring 0 is the outer boundary. -/
structure Polygon where
  Coordinates : List LineString
deriving DecidableEq, Repr

/-- Go `geometry.MultiPolygon`. -/
structure MultiPolygon where
  Coordinates : List Polygon
deriving DecidableEq, Repr

/-- A dynamically typed Go value (`interface{}`), tagged with its dynamic type. -/
inductive Dyn where
  /-- The nil interface value. -/
  | null
  /-- A `float64`. -/
  | float (x : ℚ)
  /-- A `[]float64`. -/
  | floats (xs : List ℚ)
  /-- A `[]interface{}`. -/
  | slice (xs : List Dyn)
  /-- A `[][]interface{}`. -/
  | slice2 (xs : List (List Dyn))
  /-- A `[][][]interface{}`. -/
  | slice3 (xs : List (List (List Dyn)))
  /-- A value of any other dynamic type. -/
  | other (typeName : String)

/-- Go `geojson.Polygon`. -/
def geojsonPolygon : String := "Polygon"

/-- Go `geojson.MultiPolygon`. -/
def geojsonMultiPolygon : String := "MultiPolygon"

/-- Go `geometry.Geometry`. -/
structure Geometry where
  GeoJSONType : String
  Coordinates : Dyn

/-- Go `feature.Feature`; a nil `Properties` map is `none`. -/
structure Feature where
  ID : String
  Bbox : List ℚ
  Geometry : Geometry
  Properties : Option (List (String × Dyn))

/-- The functions of the external geojson library that `intersect.go` calls. -/
structure GeoLib where
  /-- Go `geometry.Geometry.ToPolygon`. -/
  ToPolygon : Geometry → Except String Polygon
  /-- Go `geometry.Geometry.ToMultiPolygon`. -/
  ToMultiPolygon : Geometry → Except String MultiPolygon
  /-- Go `feature.New(geometry, bbox, properties, id)`. -/
  New : Geometry → List ℚ → Option (List (String × Dyn)) → String → Except String Feature

/-- The dynamic argument of `Intersect` (`interface{}`), by dynamic type.
A pointer type has two cases: the non-nil pointer, with the value it points
to, and the nil pointer, which the interface value holds with its type (such
an interface value is not equal to `nil`). -/
inductive Input where
  /-- The nil interface value. -/
  | null
  /-- A non-nil `*feature.Feature`. -/
  | featurePtr (v : Feature)
  /-- The nil pointer `(*feature.Feature)(nil)`. -/
  | featureNilPtr
  /-- A `feature.Feature`. -/
  | feature (v : Feature)
  /-- A non-nil `*geometry.Geometry`. -/
  | geometryPtr (v : Geometry)
  /-- The nil pointer `(*geometry.Geometry)(nil)`. -/
  | geometryNilPtr
  /-- A `geometry.Geometry`. -/
  | geometry (v : Geometry)
  /-- A non-nil `*geometry.Polygon`. -/
  | polygonPtr (v : Polygon)
  /-- The nil pointer `(*geometry.Polygon)(nil)`. -/
  | polygonNilPtr
  /-- A `geometry.Polygon`. -/
  | polygon (v : Polygon)
  /-- A non-nil `*geometry.MultiPolygon`. -/
  | multiPolygonPtr (v : MultiPolygon)
  /-- The nil pointer `(*geometry.MultiPolygon)(nil)`. -/
  | multiPolygonNilPtr
  /-- A `geometry.MultiPolygon`. -/
  | multiPolygon (v : MultiPolygon)
  /-- A `geometry.Point`. -/
  | point (v : Point)
  /-- A `geometry.LineString`. -/
  | lineString (v : LineString)
  /-- A value of any other dynamic type. -/
  | other (typeName : String)

/-- The test `input == nil` on the dynamic argument: only the nil interface
value passes it, a nil pointer held with its type does not. -/
def Input.isNil (input : Input) : Bool :=
  match input with
  | .null => true
  | _ => false

/-- The outcome of a call: the returned `(value, error)` pair, or a run-time
panic (a nil pointer dereference), after which nothing is returned. -/
inductive Outcome (α : Type) where
  /-- The call returned `(value, nil)`. -/
  | ok (value : α)
  /-- The call returned the error `err`. -/
  | error (err : String)
  /-- The call panicked. -/
  | panic

/-- The outcome of a call that returns. -/
def Outcome.returned {α : Type} (result : Except String α) : Outcome α :=
  match result with
  | .ok value => .ok value
  | .error err => .error err

/-- The outcome of `getGeometryFromInput`: the returned
`(*geometry.Geometry, error)` pair, or a run-time panic. -/
inductive GeometryResult where
  /-- A non-nil pointer to `geom`, and a nil error. -/
  | ok (geom : Geometry)
  /-- The nil pointer, and a nil error. -/
  | nilPointer
  /-- The error `err`. -/
  | error (err : String)
  /-- The call panicked. -/
  | panic

/-! ## `intersect.go` -/

/-- The `[]float64{point.Lng, point.Lat}` stored for each vertex. -/
def pointDyn (point : Point) : Dyn := Dyn.floats [point.Lng, point.Lat]

/-- The `[]interface{}` built for one ring of points. -/
def ringDyn (ring : List Point) : List Dyn := ring.map pointDyn

/-- The geometry built by `getGeometryFromInput` for a `geometry.Polygon`. -/
def polygonGeometry (v : Polygon) : Geometry :=
  { GeoJSONType := geojsonPolygon
    Coordinates := Dyn.slice2 (v.Coordinates.map fun lineString => ringDyn lineString.Coordinates) }

/-- The geometry built by `getGeometryFromInput` for a `geometry.MultiPolygon`. -/
def multiPolygonGeometry (v : MultiPolygon) : Geometry :=
  { GeoJSONType := geojsonMultiPolygon
    Coordinates := Dyn.slice3 (v.Coordinates.map fun poly =>
      poly.Coordinates.map fun lineString => ringDyn lineString.Coordinates) }

/-- Go `getGeometryFromInput`: the type switch over the dynamic input.  The
cases of `*feature.Feature`, `*geometry.Polygon` and `*geometry.MultiPolygon`
read a field through the pointer (`&v.Geometry`, `v.Coordinates`), which
panics on a nil pointer; the case of `*geometry.Geometry` returns the pointer
as it is. -/
def getGeometryFromInput (input : Input) : GeometryResult :=
  match input with
  | .featurePtr v => .ok v.Geometry
  | .featureNilPtr => .panic
  | .feature v => .ok v.Geometry
  | .geometryPtr v => .ok v
  | .geometryNilPtr => .nilPointer
  | .geometry v => .ok v
  | .polygonPtr v => .ok (polygonGeometry v)
  | .polygonNilPtr => .panic
  | .polygon v => .ok (polygonGeometry v)
  | .multiPolygonPtr v => .ok (multiPolygonGeometry v)
  | .multiPolygonNilPtr => .panic
  | .multiPolygon v => .ok (multiPolygonGeometry v)
  | .null => .error "unsupported input type"
  | .point _ => .error "unsupported input type"
  | .lineString _ => .error "unsupported input type"
  | .other _ => .error "unsupported input type"

/-- Go `isPolygonType`. -/
def isPolygonType (geoType : String) : Bool :=
  geoType == geojsonPolygon || geoType == geojsonMultiPolygon

/-- The fallback parse of one coordinate in `extractPolygons`. -/
def parseCoord (coord : Dyn) : Except String Point :=
  match coord with
  | .slice [c0, c1] =>
    match c0, c1 with
    | .float lng, .float lat => .ok { Lng := lng, Lat := lat }
    | _, _ => .error "invalid coordinate values"
  | _ => .error "invalid coordinate format"

/-- The fallback parse of one ring in `extractPolygons`. -/
def parseRing (ring : List Dyn) : Except String (List Point) :=
  ring.mapM parseCoord

/-- The fallback parse of the rings of one polygon in `extractPolygons`. -/
def parseRings (coords : List (List Dyn)) : Except String (List (List Point)) :=
  coords.mapM parseRing

/-- The rings of a polygon as point lists (`lineString.Coordinates` of each ring). -/
def polygonRings (poly : Polygon) : List (List Point) :=
  poly.Coordinates.map fun lineString => lineString.Coordinates

/-- Go `extractPolygons`. -/
def extractPolygons (lib : GeoLib) (geom : Geometry) : Except String (List (List (List Point))) :=
  if geom.GeoJSONType = geojsonPolygon then
    match lib.ToPolygon geom with
    | .ok poly => .ok [polygonRings poly]
    | .error _ =>
      match geom.Coordinates with
      | .slice2 coords =>
        match parseRings coords with
        | .ok polyCoords => .ok [polyCoords]
        | .error e => .error e
      | _ => .error "invalid polygon coordinates"
  else if geom.GeoJSONType = geojsonMultiPolygon then
    match lib.ToMultiPolygon geom with
    | .ok multiPoly => .ok (multiPoly.Coordinates.map polygonRings)
    | .error _ =>
      match geom.Coordinates with
      | .slice3 coords => coords.mapM parseRings
      | _ => .error "invalid multipolygon coordinates"
  else .error "geometry must be polygon or multipolygon"

/-- Go `BoundingBox`. -/
structure BoundingBox where
  MinX : ℚ
  MinY : ℚ
  MaxX : ℚ
  MaxY : ℚ
deriving DecidableEq, Repr

/-- One iteration of the loop of `calculateBoundingBox`. -/
def bboxStep (b : BoundingBox) (point : Point) : BoundingBox :=
  { MinX := if point.Lng < b.MinX then point.Lng else b.MinX
    MaxX := if point.Lng > b.MaxX then point.Lng else b.MaxX
    MinY := if point.Lat < b.MinY then point.Lat else b.MinY
    MaxY := if point.Lat > b.MaxY then point.Lat else b.MaxY }

/-- Go `calculateBoundingBox`. -/
def calculateBoundingBox (ring : List Point) : BoundingBox :=
  match ring with
  | [] => { MinX := 0, MinY := 0, MaxX := 0, MaxY := 0 }
  | p0 :: _ => ring.foldl bboxStep { MinX := p0.Lng, MinY := p0.Lat, MaxX := p0.Lng, MaxY := p0.Lat }

/-- Go `boundingBoxesIntersect`. -/
def boundingBoxesIntersect (bbox1 bbox2 : BoundingBox) : Bool :=
  !(decide (bbox1.MaxX < bbox2.MinX) || decide (bbox2.MaxX < bbox1.MinX) ||
    decide (bbox1.MaxY < bbox2.MinY) || decide (bbox2.MaxY < bbox1.MinY))

/-- The point `ring[i]`. -/
def ringAt (ring : List Point) (i : Nat) : Point :=
  ring.getD i { Lng := 0, Lat := 0 }

/-- Go `calculatePolygonArea`: the shoelace formula. -/
def calculatePolygonArea (ring : List Point) : ℚ :=
  if ring.length < 3 then 0
  else
    let n := ring.length
    (List.range n).foldl (fun area i =>
      let j := (i + 1) % n
      area + (ringAt ring i).Lng * (ringAt ring j).Lat - (ringAt ring j).Lng * (ringAt ring i).Lat) 0 / 2

/-- Go `intersectPolygons`; `none` is the nil result. -/
def intersectPolygons (poly1 poly2 : List (List Point)) : Option (List (List Point)) :=
  match poly1, poly2 with
  | [], _ => none
  | _, [] => none
  | outer1 :: _, outer2 :: _ =>
    if outer1.length = 0 ∨ outer2.length = 0 then none
    else
      let bbox1 := calculateBoundingBox outer1
      let bbox2 := calculateBoundingBox outer2
      if !boundingBoxesIntersect bbox1 bbox2 then none
      else
        let area1 := calculatePolygonArea outer1
        let area2 := calculatePolygonArea outer2
        if area1 < area2 then some poly1 else some poly2

/-- The body of the inner loop of `calculateIntersection`: append a non-nil
pairwise intersection to `result`. -/
def appendIntersection (poly1 : List (List Point)) (result : List (List (List Point)))
    (poly2 : List (List Point)) : List (List (List Point)) :=
  match intersectPolygons poly1 poly2 with
  | some intersection => result ++ [intersection]
  | none => result

/-- The `result` slice accumulated by the two loops of `calculateIntersection`. -/
def collectIntersections (polygons1 polygons2 : List (List (List Point))) :
    List (List (List Point)) :=
  polygons1.foldl (fun result poly1 => polygons2.foldl (appendIntersection poly1) result) []

/-- Go `calculateIntersection`; `none` is the nil result (the error is always nil). -/
def calculateIntersection (polygons1 polygons2 : List (List (List Point))) :
    Except String (Option (List (List (List Point)))) :=
  let result := collectIntersections polygons1 polygons2
  if result.length = 0 then .ok none else .ok (some result)

/-- The loop state of `calculateBoundingBoxFromIntersection`. -/
structure BoxAcc where
  first : Bool
  minX : ℚ
  minY : ℚ
  maxX : ℚ
  maxY : ℚ
deriving DecidableEq, Repr

/-- One iteration of the loop of `calculateBoundingBoxFromIntersection`. -/
def boxAccStep (acc : BoxAcc) (poly : List (List Point)) : BoxAcc :=
  match poly with
  | [] => acc
  | outer :: _ =>
    let bbox := calculateBoundingBox outer
    if acc.first then
      { first := false, minX := bbox.MinX, minY := bbox.MinY, maxX := bbox.MaxX, maxY := bbox.MaxY }
    else
      { first := false
        minX := if bbox.MinX < acc.minX then bbox.MinX else acc.minX
        minY := if bbox.MinY < acc.minY then bbox.MinY else acc.minY
        maxX := if bbox.MaxX > acc.maxX then bbox.MaxX else acc.maxX
        maxY := if bbox.MaxY > acc.maxY then bbox.MaxY else acc.maxY }

/-- Go `calculateBoundingBoxFromIntersection`. -/
def calculateBoundingBoxFromIntersection (intersection : List (List (List Point))) :
    Except String (List ℚ) :=
  if intersection.length = 0 then .error "empty intersection"
  else
    let acc := intersection.foldl boxAccStep
      { first := true, minX := 0, minY := 0, maxX := 0, maxY := 0 }
    .ok [acc.minX, acc.minY, acc.maxX, acc.maxY]

/-- The `[][]interface{}` built for the rings of one result polygon. -/
def ringsDyn (poly : List (List Point)) : List (List Dyn) := poly.map ringDyn

/-- The geometry built by `createFeatureFromIntersection`. -/
def intersectionGeometry (intersection : List (List (List Point))) : Geometry :=
  match intersection with
  | [poly] => { GeoJSONType := geojsonPolygon, Coordinates := Dyn.slice2 (ringsDyn poly) }
  | _ => { GeoJSONType := geojsonMultiPolygon, Coordinates := Dyn.slice3 (intersection.map ringsDyn) }

/-- Go `createFeatureFromIntersection`; `none` is the nil feature. -/
def createFeatureFromIntersection (lib : GeoLib) (intersection : List (List (List Point))) :
    Except String (Option Feature) :=
  if intersection.length = 0 then .ok none
  else
    let geom := intersectionGeometry intersection
    match calculateBoundingBoxFromIntersection intersection with
    | .error e => .error e
    | .ok bbox =>
      match lib.New geom bbox none "" with
      | .error e => .error e
      | .ok f => .ok (some f)

/-- Go `Intersect`; `.ok none` is the `(nil, nil)` result.  The test of the
type tags reads `geom1.GeoJSONType` and then, unless the first test already
decides, `geom2.GeoJSONType`: each read panics on a nil `*geometry.Geometry`. -/
def Intersect (lib : GeoLib) (poly1 poly2 : Input) : Outcome (Option Feature) :=
  if poly1.isNil || poly2.isNil then .error "input polygons cannot be nil"
  else
    match getGeometryFromInput poly1 with
    | .panic => .panic
    | .error e => .error e
    | .nilPointer =>
      match getGeometryFromInput poly2 with
      | .panic => .panic
      | .error e => .error e
      | .nilPointer => .panic
      | .ok _ => .panic
    | .ok geom1 =>
      match getGeometryFromInput poly2 with
      | .panic => .panic
      | .error e => .error e
      | .nilPointer =>
        if !isPolygonType geom1.GeoJSONType then
          .error "both inputs must be polygons or multipolygons"
        else .panic
      | .ok geom2 =>
        if !isPolygonType geom1.GeoJSONType || !isPolygonType geom2.GeoJSONType then
          .error "both inputs must be polygons or multipolygons"
        else
          match extractPolygons lib geom1 with
          | .error e => .error e
          | .ok polygons1 =>
            match extractPolygons lib geom2 with
            | .error e => .error e
            | .ok polygons2 =>
              match calculateIntersection polygons1 polygons2 with
              | .error e => .error e
              | .ok none => .ok none
              | .ok (some intersection) =>
                Outcome.returned (createFeatureFromIntersection lib intersection)

/-! ## Assumptions on the external library

The general theorems quantify over every `GeoLib`; what they need of it is
stated by the predicates below. -/

/-- The typed accessor reads polygon `p` back from the geometry that
`getGeometryFromInput` builds for it. -/
def GeoLib.ReadsPolygon (lib : GeoLib) (p : Polygon) : Prop :=
  lib.ToPolygon (polygonGeometry p) = .ok p

/-- The typed accessor reads multi-polygon `m` back from the geometry that
`getGeometryFromInput` builds for it. -/
def GeoLib.ReadsMultiPolygon (lib : GeoLib) (m : MultiPolygon) : Prop :=
  lib.ToMultiPolygon (multiPolygonGeometry m) = .ok m

/-- When the typed accessor succeeds on the geometry built for a polygon, it
returns that polygon. -/
def GeoLib.PolygonSound (lib : GeoLib) : Prop :=
  ∀ p q : Polygon, lib.ToPolygon (polygonGeometry p) = .ok q → q = p

/-- The feature constructor accepts a four-entry bounding box and stores its
arguments unchanged. -/
def GeoLib.BuildsFeature (lib : GeoLib) : Prop :=
  ∀ (g : Geometry) (bbox : List ℚ) (props : Option (List (String × Dyn))) (id : String),
    bbox.length = 4 → lib.New g bbox props id = .ok { ID := id, Bbox := bbox, Geometry := g, Properties := props }

/-! ## A reference instance of the library, for concrete evaluation -/

/-- Decode of one number of a coordinate array. -/
def decodeNumber (d : Dyn) : Option ℚ :=
  match d with
  | .float x => some x
  | _ => none

/-- Decode of one position: `[lng, lat, ...]`. -/
def decodePoint (d : Dyn) : Option Point :=
  match d with
  | .floats (lng :: lat :: _) => some { Lng := lng, Lat := lat }
  | .slice (c0 :: c1 :: _) =>
    match decodeNumber c0, decodeNumber c1 with
    | some lng, some lat => some { Lng := lng, Lat := lat }
    | _, _ => none
  | _ => none

/-- Decode of one ring. -/
def decodeLineString (ds : List Dyn) : Option LineString :=
  (ds.mapM decodePoint).map LineString.mk

/-- Decode of the rings of a polygon. -/
def decodePolygon (rs : List (List Dyn)) : Option Polygon :=
  (rs.mapM decodeLineString).map Polygon.mk

/-- Decode of the polygons of a multi-polygon. -/
def decodeMultiPolygon (ps : List (List (List Dyn))) : Option MultiPolygon :=
  (ps.mapM decodePolygon).map MultiPolygon.mk

/-- Modelled from the spec: the geometry-model collaborator (the external
geojson library, absent from the sources): its "as Polygon" and
"as MultiPolygon" fallible converters and its feature constructor "returning a
Feature or a validation error".  The converters check the type tag and decode
the coordinate arrays; the constructor requires a bounding box of four or six
entries.  It is used only to evaluate `Intersect` on concrete inputs. -/
def refLib : GeoLib where
  ToPolygon := fun g =>
    if g.GeoJSONType = geojsonPolygon then
      match g.Coordinates with
      | .slice2 rs =>
        match decodePolygon rs with
        | some p => .ok p
        | none => .error "cannot marshal object"
      | _ => .error "cannot marshal object"
    else .error "invalid geometry type"
  ToMultiPolygon := fun g =>
    if g.GeoJSONType = geojsonMultiPolygon then
      match g.Coordinates with
      | .slice3 ps =>
        match decodeMultiPolygon ps with
        | some m => .ok m
        | none => .error "cannot marshal object"
      | _ => .error "cannot marshal object"
    else .error "invalid geometry type"
  New := fun g bbox props id =>
    if bbox.length = 4 ∨ bbox.length = 6 then
      .ok { ID := id, Bbox := bbox, Geometry := g, Properties := props }
    else .error "bounding boxes must either have 4 or 6 values"

/-- The test of the geojson library on a ring of a polygon: at least four
positions, the last equal to the first. -/
def isLinearRing (ring : LineString) : Bool :=
  decide (4 ≤ ring.Coordinates.length) &&
    decide (ring.Coordinates.head? = ring.Coordinates.getLast?)

/-- Modelled from the spec: the geometry-model collaborator of `refLib` with
the validation of its fallible converters.  A ring is "by convention closed
(first point equals last point)"; "as Polygon" and "as MultiPolygon" fail on
a ring that is not closed or has fewer than four positions, as the external
geojson library does.  It is used only to evaluate `Intersect` on concrete
inputs. -/
def strictLib : GeoLib where
  ToPolygon := fun g =>
    match refLib.ToPolygon g with
    | .ok p => if p.Coordinates.all isLinearRing then .ok p else .error "invalid linear ring"
    | .error e => .error e
  ToMultiPolygon := fun g =>
    match refLib.ToMultiPolygon g with
    | .ok m =>
      if m.Coordinates.all fun p => p.Coordinates.all isLinearRing then .ok m
      else .error "invalid linear ring"
    | .error e => .error e
  New := refLib.New

/-- The single-ring polygon with the given `(lng, lat)` vertices
(`createTestPolygon` of the tests). -/
def createTestPolygon (coords : List (ℚ × ℚ)) : Polygon :=
  { Coordinates := [{ Coordinates := coords.map fun c => { Lng := c.1, Lat := c.2 } }] }

/-! ## Concrete inputs -/

/-- The square `[0,0]-[10,10]` (`poly1` of `TestIntersect`). -/
def squareA : Polygon := createTestPolygon [(0, 0), (10, 0), (10, 10), (0, 10), (0, 0)]

/-- The square `[5,5]-[15,15]` (`poly2` of `TestIntersect`). -/
def squareB : Polygon := createTestPolygon [(5, 5), (15, 5), (15, 15), (5, 15), (5, 5)]

/-- The square `[0,0]-[5,5]` (`poly3` of `TestIntersect`). -/
def squareC : Polygon := createTestPolygon [(0, 0), (5, 0), (5, 5), (0, 5), (0, 0)]

/-- The square `[10,10]-[15,15]` (`poly4` of `TestIntersect`). -/
def squareD : Polygon := createTestPolygon [(10, 10), (15, 10), (15, 15), (10, 15), (10, 10)]

/-- The square `[5,0]-[10,5]`, which shares the edge `x = 5` with `squareC`. -/
def squareE : Polygon := createTestPolygon [(5, 0), (10, 0), (10, 5), (5, 5), (5, 0)]

/-- The square `[4,4]-[6,6]`. -/
def squareF : Polygon := createTestPolygon [(4, 4), (6, 4), (6, 6), (4, 6), (4, 4)]

/-- The ring of the square `[2,2]-[8,8]`. -/
def holeRing : LineString :=
  { Coordinates := [{ Lng := 2, Lat := 2 }, { Lng := 8, Lat := 2 }, { Lng := 8, Lat := 8 },
      { Lng := 2, Lat := 8 }, { Lng := 2, Lat := 2 }] }

/-- The square `[0,0]-[10,10]` with the hole `[2,2]-[8,8]`. -/
def holedSquare : Polygon := { Coordinates := squareA.Coordinates ++ [holeRing] }

/-- The triangle with the vertices (0,0), (1,0), (0,1), its ring left open:
three positions, the last different from the first. -/
def openTriangle : Polygon := createTestPolygon [(0, 0), (1, 0), (0, 1)]

/-- The polygon with zero rings (`emptyPoly` of `TestIntersectEdgeCases`). -/
def emptyPoly : Polygon := { Coordinates := [] }

/-- The multi-polygon of the two disjoint squares `[0,0]-[5,5]` and `[10,10]-[15,15]`. -/
def twoSquares : MultiPolygon := { Coordinates := [squareC, squareD] }

/-- The outer ring of a polygon (`poly[0]`), empty when there is none. -/
def outerRing (p : Polygon) : List Point := (polygonRings p).headD []

/-- The four entries `[MinX, MinY, MaxX, MaxY]` of a bounding box. -/
def BoundingBox.toList (b : BoundingBox) : List ℚ := [b.MinX, b.MinY, b.MaxX, b.MaxY]

/-- The number of pairs `(p, q)`, `p` from the first list and `q` from the
second, on which `intersectPolygons` is not nil. -/
def pairCount (polygons1 polygons2 : List (List (List Point))) : Nat :=
  ((polygons1.product polygons2).filter fun pq => (intersectPolygons pq.1 pq.2).isSome).length

/-- The nil pointers held with their type in the dynamic argument. -/
def Input.isNilPointer (input : Input) : Bool :=
  match input with
  | .featureNilPtr => true
  | .geometryNilPtr => true
  | .polygonNilPtr => true
  | .multiPolygonNilPtr => true
  | _ => false

/-- The inputs that `Intersect` does not accept: nil (the nil interface value
or a nil pointer), a value outside the four accepted shapes, or a Feature or
Geometry whose type tag is neither Polygon nor MultiPolygon. -/
def Input.unacceptable (input : Input) : Bool :=
  match input with
  | .null => true
  | .featurePtr v => !isPolygonType v.Geometry.GeoJSONType
  | .featureNilPtr => true
  | .feature v => !isPolygonType v.Geometry.GeoJSONType
  | .geometryPtr v => !isPolygonType v.GeoJSONType
  | .geometryNilPtr => true
  | .geometry v => !isPolygonType v.GeoJSONType
  | .polygonPtr _ => false
  | .polygonNilPtr => true
  | .polygon _ => false
  | .multiPolygonPtr _ => false
  | .multiPolygonNilPtr => true
  | .multiPolygon _ => false
  | .point _ => true
  | .lineString _ => true
  | .other _ => true

/-! ## Statement helpers for the result bounding box -/

/-- The vertices of the outer rings (`poly[0]`) of the polygons of a list. -/
def outerVertices (polys : List (List (List Point))) : List Point :=
  polys.flatMap fun poly => poly.headD []

/-- The box `(minX, minY, maxX, maxY)` is the tight bounding box of the points
`pts`: it contains every point, and each of its four entries is the
coordinate of one of the points. -/
def IsTightBox (pts : List Point) (minX minY maxX maxY : ℚ) : Prop :=
  (∀ p ∈ pts, minX ≤ p.Lng ∧ p.Lng ≤ maxX ∧ minY ≤ p.Lat ∧ p.Lat ≤ maxY) ∧
  (∃ p ∈ pts, p.Lng = minX) ∧ (∃ p ∈ pts, p.Lat = minY) ∧
  (∃ p ∈ pts, p.Lng = maxX) ∧ (∃ p ∈ pts, p.Lat = maxY)

instance (pts : List Point) (minX minY maxX maxY : ℚ) :
    Decidable (IsTightBox pts minX minY maxX maxY) := by
  unfold IsTightBox
  infer_instance

/-! ## `circle.go` -/

/-- Go `geojson.Point`. -/
def geojsonPoint : String := "Point"

/-- Go `geojson.LineString`. -/
def geojsonLineString : String := "LineString"

/-- Go `CircleOptions`; `Steps` is a Go `int`, a nil `Properties` map is `none`. -/
structure CircleOptions where
  Steps : Int
  Units : String
  Properties : Option (List (String × Dyn))

/-- The external functions and constants that `circle.go` uses, on top of those
of `GeoLib`: the unit conversion of the `conversions` and `constants`
packages, the point accessors of the geojson library, and `math.Pi`,
`math.Cos`, `math.Sin` of the Go standard library (a `float64` result is a
rational). -/
structure CircleLib extends GeoLib where
  /-- Go `constants.UnitKilometers`. -/
  UnitKilometers : String
  /-- Go `conversions.LengthToDegrees(distance, unit)`. -/
  LengthToDegrees : ℚ → String → Except String ℚ
  /-- Go `math.Pi`. -/
  Pi : ℚ
  /-- Go `math.Cos`. -/
  Cos : ℚ → ℚ
  /-- Go `math.Sin`. -/
  Sin : ℚ → ℚ
  /-- Go `feature.Feature.ToPoint`. -/
  FeatureToPoint : Feature → Except String Point
  /-- Go `geometry.Geometry.ToPoint`. -/
  GeometryToPoint : Geometry → Except String Point

/-- The point computed by iteration `i` of the loop of
`generateCircleCoordinates`. -/
def circlePoint (lib : CircleLib) (center : Point) (radiusInDegrees : ℚ) (steps : Int)
    (i : Nat) : Point :=
  let angle := (i : ℚ) * 2 * lib.Pi / (steps : ℚ)
  let dx := radiusInDegrees * lib.Cos angle
  let dy := radiusInDegrees * lib.Sin angle
  { Lng := center.Lng + dx, Lat := center.Lat + dy }

/-- Go `generateCircleCoordinates`: the loop `for i := 0; i < steps; i++`
appends one point per iteration, then the first point is appended again. -/
def generateCircleCoordinates (lib : CircleLib) (center : Point) (radiusInDegrees : ℚ)
    (steps : Int) : List Point :=
  let coordinates := (List.range steps.toNat).foldl
    (fun coordinates i => coordinates ++ [circlePoint lib center radiusInDegrees steps i]) []
  match coordinates with
  | [] => coordinates
  | first :: _ => coordinates ++ [first]

/-- Go `convertPointsToInterface`. -/
def convertPointsToInterface (points : List Point) : List Dyn :=
  points.foldl (fun result point => result ++ [Dyn.floats [point.Lng, point.Lat]]) []

/-- Go `calculateCircleBoundingBox`: west, south, east, north. -/
def calculateCircleBoundingBox (center : Point) (radiusInDegrees : ℚ) : List ℚ :=
  [center.Lng - radiusInDegrees, center.Lat - radiusInDegrees,
   center.Lng + radiusInDegrees, center.Lat + radiusInDegrees]

/-- The options struct after the default-setting statements of `Circle`. -/
def setDefaults (lib : CircleLib) (options : CircleOptions) : CircleOptions :=
  let options := if options.Steps ≤ 0 then { options with Steps := 64 } else options
  if options.Units = "" then { options with Units := lib.UnitKilometers } else options

/-- The options that `Circle` works with: the caller's struct, or a fresh zero
struct for a nil argument, after the defaults are set. -/
def effectiveOptions (lib : CircleLib) (options : Option CircleOptions) : CircleOptions :=
  setDefaults lib (options.getD { Steps := 0, Units := "", Properties := none })

/-- The part of `Circle` after the default-setting statements. -/
def circleBody (lib : CircleLib) (center : Point) (radius : ℚ) (options : CircleOptions) :
    Except String Feature :=
  match lib.LengthToDegrees radius options.Units with
  | .error e => .error e
  | .ok radiusInDegrees =>
    let coordinates := generateCircleCoordinates lib center radiusInDegrees options.Steps
    let geom : Geometry :=
      { GeoJSONType := geojsonPolygon
        Coordinates := Dyn.slice2 [convertPointsToInterface coordinates] }
    let bbox := calculateCircleBoundingBox center radiusInDegrees
    match lib.New geom bbox options.Properties "" with
    | .error e => .error e
    | .ok f => .ok f

/-- Go `Circle`.  `options` is the `*CircleOptions` argument (`none` is nil).
The first component is the returned `(feature, error)`; the second is the
caller's options struct after the call, which `Circle` writes its defaults
into (a nil argument is replaced by a fresh local struct). -/
def Circle (lib : CircleLib) (center : Point) (radius : ℚ) (options : Option CircleOptions) :
    Except String Feature × Option CircleOptions :=
  match options with
  | none => (circleBody lib center radius (setDefaults lib { Steps := 0, Units := "", Properties := none }), none)
  | some o => (circleBody lib center radius (setDefaults lib o), some (setDefaults lib o))

/-- Go `CircleFromCoordinates`. -/
def CircleFromCoordinates (lib : CircleLib) (center : List ℚ) (radius : ℚ)
    (options : Option CircleOptions) : Except String Feature × Option CircleOptions :=
  match center with
  | [c0, c1] => Circle lib { Lng := c0, Lat := c1 } radius options
  | _ => (.error "center must be [lng, lat]", options)

/-- Go `CircleFromFeature`; `f` is the `*feature.Feature` argument (`none` is nil). -/
def CircleFromFeature (lib : CircleLib) (f : Option Feature) (radius : ℚ)
    (options : Option CircleOptions) : Except String Feature × Option CircleOptions :=
  match f with
  | none => (.error "feature cannot be nil", options)
  | some f =>
    if f.Geometry.GeoJSONType ≠ geojsonPoint then (.error "feature must be a Point", options)
    else
      match lib.FeatureToPoint f with
      | .error e => (.error e, options)
      | .ok point => Circle lib point radius options

/-- Go `CircleFromGeometry`; `geom` is the `*geometry.Geometry` argument
(`none` is nil). -/
def CircleFromGeometry (lib : CircleLib) (geom : Option Geometry) (radius : ℚ)
    (options : Option CircleOptions) : Except String Feature × Option CircleOptions :=
  match geom with
  | none => (.error "geometry cannot be nil", options)
  | some geom =>
    if geom.GeoJSONType ≠ geojsonPoint then (.error "geometry must be a Point", options)
    else
      match lib.GeometryToPoint geom with
      | .error e => (.error e, options)
      | .ok point => Circle lib point radius options

/-- The offset `(dx, dy)` that iteration `i` of the loop of
`generateCircleCoordinates` adds to the center, for the degree-radius
`radiusInDegrees`. -/
def circleOffset (lib : CircleLib) (radiusInDegrees : ℚ) (steps : Int) (i : Nat) : ℚ × ℚ :=
  let angle := (i : ℚ) * 2 * lib.Pi / (steps : ℚ)
  (radiusInDegrees * lib.Cos angle, radiusInDegrees * lib.Sin angle)

/-! ## A reference instance of the circle library, for concrete evaluation -/

/-- The distance units that the tests pass to `Circle`, each with the radius
of the Earth in that unit. -/
def refUnitFactors : List (String × ℚ) :=
  [("kilometeres", 63710088 / 10000), ("miles", 3958761333810546 / 1000000000000),
   ("meters", 63710088 / 10), ("feet", 20902260511392 / 1000000)]

/-- The exact value of the `float64` constant `math.Pi`. -/
def refPi : ℚ := 884279719003555 / 281474976710656

/-- Modelled from the spec: the collaborators of the circle builder, which are
absent from the sources.  The unit conversion maps `(length, unit)` to
`length / earthRadius(unit) · 180 / π`, with an error when the unit is not
supported; the point accessors read a two-entry coordinate array of a
Point-typed geometry.  `Cos` and `Sin` are exact rational stand-ins for
`math.Cos` and `math.Sin` (the half-angle formulas with `tan (x/2)` replaced by
`x/2`): they agree with the Go functions at 0, stay within `[-1, 1]` and
satisfy `cos² + sin² = 1`.  It is used only to evaluate the circle functions
on concrete inputs. -/
def refCircleLib : CircleLib :=
  { refLib with
    UnitKilometers := "kilometeres"
    LengthToDegrees := fun distance unit =>
      match refUnitFactors.lookup unit with
      | some factor => .ok (distance / factor * 180 / refPi)
      | none => .error "invalid units"
    Pi := refPi
    Cos := fun x => (1 - (x / 2) ^ 2) / (1 + (x / 2) ^ 2)
    Sin := fun x => 2 * (x / 2) / (1 + (x / 2) ^ 2)
    FeatureToPoint := fun f =>
      if f.Geometry.GeoJSONType = geojsonPoint then
        match f.Geometry.Coordinates with
        | .floats [lng, lat] => .ok { Lng := lng, Lat := lat }
        | _ => .error "cannot marshal object"
      else .error "invalid geometry type"
    GeometryToPoint := fun g =>
      if g.GeoJSONType = geojsonPoint then
        match g.Coordinates with
        | .floats [lng, lat] => .ok { Lng := lng, Lat := lat }
        | _ => .error "cannot marshal object"
      else .error "invalid geometry type" }

/-- The `float64` value that `math.Sin` returns at `math.Pi`:
4851325781271 · 2⁻⁹⁵, printed 1.2246467991473515e-16.  It is not 0, since
`math.Pi` is not π. -/
def sinOfPi : ℚ := 4851325781271 / 2 ^ 95

/-- The circle library of `refCircleLib` with the `float64` values of
`math.Cos` and `math.Sin` at the angles 0 and `math.Pi`: cos 0 = 1, sin 0 = 0,
cos `math.Pi` = -1 and sin `math.Pi` = `sinOfPi`.  These are the two angles of
a ring of two steps; at every other angle the functions are those of
`refCircleLib`. -/
def halfTurnLib : CircleLib :=
  { refCircleLib with
    Cos := fun x => if x = 0 then 1 else if x = refPi then -1 else refCircleLib.Cos x
    Sin := fun x => if x = 0 then 0 else if x = refPi then sinOfPi else refCircleLib.Sin x }

/-! ## Statement helpers for the area and the pair test -/

/-- The term `x_i·y_j − x_j·y_i` of the shoelace formula for the points `p`
(index `i`) and `q` (index `j`). -/
def cross (p q : Point) : ℚ := p.Lng * q.Lat - q.Lng * p.Lat

/-- The signed shoelace sum in the words of the specification:
`0.5 · Σ_{i=0}^{n-1} (x_i·y_{(i+1) mod n} − x_{(i+1) mod n}·y_i)`. -/
def shoelaceSum (ring : List Point) : ℚ :=
  (1 / 2) * ∑ i ∈ Finset.range ring.length,
    ((ringAt ring i).Lng * (ringAt ring ((i + 1) % ring.length)).Lat -
      (ringAt ring ((i + 1) % ring.length)).Lng * (ringAt ring i).Lat)

/-- The non-nil values `intersectPolygons(p, q)` in row-major order: for each
`p` of the first list in order, for each `q` of the second list in order. -/
def pairwiseIntersections (polygons1 polygons2 : List (List (List Point))) :
    List (List (List Point)) :=
  (polygons1.product polygons2).filterMap fun pq => intersectPolygons pq.1 pq.2

/-- The ring (0,0), (2,2), (2,0), (0,2): its edges (0,0)-(2,2) and (2,0)-(0,2)
cross at (1,1), so that it encloses the two triangles `bowTieRight` and
`bowTieLeft`. -/
def bowTie : List Point :=
  [{ Lng := 0, Lat := 0 }, { Lng := 2, Lat := 2 }, { Lng := 2, Lat := 0 }, { Lng := 0, Lat := 2 }]

/-- The triangle (1,1), (2,2), (2,0) enclosed by `bowTie`: base 2, height 1. -/
def bowTieRight : List Point :=
  [{ Lng := 1, Lat := 1 }, { Lng := 2, Lat := 2 }, { Lng := 2, Lat := 0 }]

/-- The triangle (1,1), (0,2), (0,0) enclosed by `bowTie`: base 2, height 1. -/
def bowTieLeft : List Point :=
  [{ Lng := 1, Lat := 1 }, { Lng := 0, Lat := 2 }, { Lng := 0, Lat := 0 }]

/-- Every coordinate of the ring is an integer of magnitude at most `B`. -/
def IsIntegerRing (B : Nat) (ring : List Point) : Prop :=
  ∀ p ∈ ring, ∃ x y : Int, p.Lng = x ∧ p.Lat = y ∧ |x| ≤ B ∧ |y| ≤ B

/-- The square `[0,0]-[10,10]` of `squareA` with its vertices in reverse
order. -/
def squareAReversed : Polygon :=
  createTestPolygon [(0, 0), (0, 10), (10, 10), (10, 0), (0, 0)]

/-! ## Lemmas on the pipeline of `Intersect` -/

theorem extractPolygons_polygonGeometry (lib : GeoLib) (p : Polygon) (h : lib.ReadsPolygon p) :
    extractPolygons lib (polygonGeometry p) = .ok [polygonRings p] := by
  unfold GeoLib.ReadsPolygon at h
  simp [extractPolygons, polygonGeometry] at h ⊢
  rw [h]

theorem extractPolygons_multiPolygonGeometry (lib : GeoLib) (m : MultiPolygon)
    (h : lib.ReadsMultiPolygon m) :
    extractPolygons lib (multiPolygonGeometry m) = .ok (m.Coordinates.map polygonRings) := by
  unfold GeoLib.ReadsMultiPolygon at h
  have hne : geojsonMultiPolygon ≠ geojsonPolygon := by decide
  simp [extractPolygons, multiPolygonGeometry, hne] at h ⊢
  rw [h]

theorem Outcome.returned_ok {α : Type} (value : α) :
    Outcome.returned (.ok value : Except String α) = .ok value := rfl

theorem Outcome.returned_error {α : Type} (err : String) :
    Outcome.returned (.error err : Except String α) = .error err := rfl

theorem Intersect_of_extract (lib : GeoLib) (a b : Input) (g1 g2 : Geometry)
    (A B : List (List (List Point)))
    (h1 : getGeometryFromInput a = .ok g1) (h2 : getGeometryFromInput b = .ok g2)
    (t1 : isPolygonType g1.GeoJSONType = true) (t2 : isPolygonType g2.GeoJSONType = true)
    (e1 : extractPolygons lib g1 = .ok A) (e2 : extractPolygons lib g2 = .ok B) :
    Intersect lib a b =
      Outcome.returned (createFeatureFromIntersection lib (collectIntersections A B)) := by
  have na : a.isNil = false := by cases a <;> simp_all [getGeometryFromInput, Input.isNil]
  have nb : b.isNil = false := by cases b <;> simp_all [getGeometryFromInput, Input.isNil]
  simp only [Intersect, na, nb, h1, h2, t1, t2, e1, e2, calculateIntersection]
  by_cases hl : (collectIntersections A B).length = 0
  · simp [hl, createFeatureFromIntersection, Outcome.returned]
  · simp [hl]

/-- An error of `extractPolygons` on the first geometry is the result of
`Intersect`. -/
theorem Intersect_of_extract_error_left (lib : GeoLib) (a b : Input) (g1 g2 : Geometry)
    (e : String)
    (h1 : getGeometryFromInput a = .ok g1) (h2 : getGeometryFromInput b = .ok g2)
    (t1 : isPolygonType g1.GeoJSONType = true) (t2 : isPolygonType g2.GeoJSONType = true)
    (e1 : extractPolygons lib g1 = .error e) :
    Intersect lib a b = .error e := by
  have na : a.isNil = false := by cases a <;> simp_all [getGeometryFromInput, Input.isNil]
  have nb : b.isNil = false := by cases b <;> simp_all [getGeometryFromInput, Input.isNil]
  simp only [Intersect, na, nb, h1, h2, t1, t2, e1]
  simp

/-- An error of `extractPolygons` on the second geometry, after a success on
the first, is the result of `Intersect`. -/
theorem Intersect_of_extract_error_right (lib : GeoLib) (a b : Input) (g1 g2 : Geometry)
    (A : List (List (List Point))) (e : String)
    (h1 : getGeometryFromInput a = .ok g1) (h2 : getGeometryFromInput b = .ok g2)
    (t1 : isPolygonType g1.GeoJSONType = true) (t2 : isPolygonType g2.GeoJSONType = true)
    (e1 : extractPolygons lib g1 = .ok A) (e2 : extractPolygons lib g2 = .error e) :
    Intersect lib a b = .error e := by
  have na : a.isNil = false := by cases a <;> simp_all [getGeometryFromInput, Input.isNil]
  have nb : b.isNil = false := by cases b <;> simp_all [getGeometryFromInput, Input.isNil]
  simp only [Intersect, na, nb, h1, h2, t1, t2, e1, e2]
  simp

theorem inner_foldl_eq (p : List (List Point)) (B acc : List (List (List Point))) :
    B.foldl (appendIntersection p) acc = acc ++ B.filterMap (intersectPolygons p) := by
  induction B generalizing acc with
  | nil => simp
  | cons q B ih =>
    simp only [List.foldl_cons, ih, List.filterMap_cons, appendIntersection]
    cases intersectPolygons p q <;> simp

theorem outer_foldl_eq (A B acc : List (List (List Point))) :
    A.foldl (fun result poly1 => B.foldl (appendIntersection poly1) result) acc
      = acc ++ A.flatMap (fun p => B.filterMap (intersectPolygons p)) := by
  induction A generalizing acc with
  | nil => simp
  | cons p A ih =>
    simp only [List.foldl_cons, inner_foldl_eq, List.flatMap_cons]
    simp only [inner_foldl_eq] at ih
    rw [ih, List.append_assoc]

theorem collectIntersections_eq (A B : List (List (List Point))) :
    collectIntersections A B = A.flatMap (fun p => B.filterMap (intersectPolygons p)) := by
  unfold collectIntersections
  rw [outer_foldl_eq]; simp

theorem collectIntersections_single (p q : List (List Point)) :
    collectIntersections [p] [q] = (intersectPolygons p q).toList := by
  rw [collectIntersections_eq]
  cases h : intersectPolygons p q <;> simp [h]

theorem bboxStep_ordered (b : BoundingBox) (pt : Point)
    (h : b.MinX ≤ b.MaxX ∧ b.MinY ≤ b.MaxY) :
    (bboxStep b pt).MinX ≤ (bboxStep b pt).MaxX ∧ (bboxStep b pt).MinY ≤ (bboxStep b pt).MaxY := by
  obtain ⟨hx, hy⟩ := h
  unfold bboxStep
  constructor
  · dsimp only
    split_ifs <;> linarith
  · dsimp only
    split_ifs <;> linarith

theorem foldl_bboxStep_ordered (ring : List Point) (b : BoundingBox)
    (h : b.MinX ≤ b.MaxX ∧ b.MinY ≤ b.MaxY) :
    (ring.foldl bboxStep b).MinX ≤ (ring.foldl bboxStep b).MaxX ∧
    (ring.foldl bboxStep b).MinY ≤ (ring.foldl bboxStep b).MaxY := by
  induction ring generalizing b with
  | nil => simpa using h
  | cons pt ring ih => simpa using ih _ (bboxStep_ordered b pt h)

theorem calculateBoundingBox_ordered (ring : List Point) :
    (calculateBoundingBox ring).MinX ≤ (calculateBoundingBox ring).MaxX ∧
    (calculateBoundingBox ring).MinY ≤ (calculateBoundingBox ring).MaxY := by
  cases ring with
  | nil => simp [calculateBoundingBox]
  | cons p0 ring =>
    unfold calculateBoundingBox
    exact foldl_bboxStep_ordered _ _ ⟨le_refl _, le_refl _⟩

theorem boundingBoxesIntersect_self (ring : List Point) :
    boundingBoxesIntersect (calculateBoundingBox ring) (calculateBoundingBox ring) = true := by
  obtain ⟨hx, hy⟩ := calculateBoundingBox_ordered ring
  simp [boundingBoxesIntersect, hx, hy]

theorem intersectPolygons_self (outer : List Point) (holes : List (List Point))
    (h : outer ≠ []) :
    intersectPolygons (outer :: holes) (outer :: holes) = some (outer :: holes) := by
  have hl : outer.length ≠ 0 := by simpa using h
  simp [intersectPolygons, hl, boundingBoxesIntersect_self]

/-- The four-entry bounding box stored for a single result polygon. -/
theorem calculateBoundingBoxFromIntersection_single (poly : List (List Point)) :
    calculateBoundingBoxFromIntersection [poly] =
      .ok (match poly with
        | [] => [0, 0, 0, 0]
        | outer :: _ =>
          [(calculateBoundingBox outer).MinX, (calculateBoundingBox outer).MinY,
           (calculateBoundingBox outer).MaxX, (calculateBoundingBox outer).MaxY]) := by
  cases poly <;> simp [calculateBoundingBoxFromIntersection, boxAccStep]

theorem calculateBoundingBoxFromIntersection_length (xs : List (List (List Point)))
    (h : xs ≠ []) : ∃ bbox, calculateBoundingBoxFromIntersection xs = .ok bbox ∧ bbox.length = 4 := by
  have hl : xs.length ≠ 0 := by simpa using h
  simp [calculateBoundingBoxFromIntersection, hl]


theorem Intersect_polygons (lib : GeoLib) (A B : Polygon)
    (hA : lib.ReadsPolygon A) (hB : lib.ReadsPolygon B) :
    Intersect lib (.polygon A) (.polygon B) =
      Outcome.returned (createFeatureFromIntersection lib
        (intersectPolygons (polygonRings A) (polygonRings B)).toList) := by
  rw [Intersect_of_extract lib (.polygon A) (.polygon B) (polygonGeometry A) (polygonGeometry B)
    [polygonRings A] [polygonRings B] rfl rfl rfl rfl
    (extractPolygons_polygonGeometry lib A hA) (extractPolygons_polygonGeometry lib B hB),
    collectIntersections_single]

theorem createFeatureFromIntersection_nil (lib : GeoLib) :
    createFeatureFromIntersection lib [] = .ok none := by
  simp [createFeatureFromIntersection]

theorem createFeatureFromIntersection_single (lib : GeoLib) (hN : lib.BuildsFeature)
    (outer : List Point) (holes : List (List Point)) :
    createFeatureFromIntersection lib [outer :: holes] =
      .ok (some { ID := "",
                  Bbox := [(calculateBoundingBox outer).MinX, (calculateBoundingBox outer).MinY,
                           (calculateBoundingBox outer).MaxX, (calculateBoundingBox outer).MaxY],
                  Geometry := { GeoJSONType := geojsonPolygon,
                                Coordinates := Dyn.slice2 (ringsDyn (outer :: holes)) },
                  Properties := none }) := by
  simp only [createFeatureFromIntersection, calculateBoundingBoxFromIntersection_single,
    intersectionGeometry]
  rw [hN _ _ _ _ (by simp)]
  simp

theorem polygonGeometry_eq (p : Polygon) :
    polygonGeometry p = { GeoJSONType := geojsonPolygon, Coordinates := Dyn.slice2 (ringsDyn (polygonRings p)) } := by
  simp [polygonGeometry, ringsDyn, polygonRings, List.map_map, Function.comp_def]

theorem refLib_buildsFeature : refLib.BuildsFeature := by
  intro g b p i h; simp [refLib, h]

/-- The feature that `Intersect` builds when the pair test returns polygon `p`
whole. -/
theorem Intersect_polygons_of_some (lib : GeoLib) (A B p : Polygon)
    (hA : lib.ReadsPolygon A) (hB : lib.ReadsPolygon B) (hN : lib.BuildsFeature)
    (hp : (polygonRings p) ≠ [])
    (h : intersectPolygons (polygonRings A) (polygonRings B) = some (polygonRings p)) :
    Intersect lib (.polygon A) (.polygon B) =
      .ok (some { ID := "", Bbox := (calculateBoundingBox (outerRing p)).toList,
                  Geometry := polygonGeometry p, Properties := none }) := by
  rw [Intersect_polygons lib A B hA hB, h, polygonGeometry_eq]
  cases hr : polygonRings p with
  | nil => exact absurd hr hp
  | cons outer holes =>
    simp [createFeatureFromIntersection_single lib hN, outerRing, hr, BoundingBox.toList,
      Outcome.returned]

theorem intersectPolygons_of_not_boundingBoxesIntersect (poly1 poly2 : List (List Point))
    (h : boundingBoxesIntersect (calculateBoundingBox (poly1.headD []))
      (calculateBoundingBox (poly2.headD [])) = false) :
    intersectPolygons poly1 poly2 = none := by
  cases poly1 with
  | nil => simp [intersectPolygons]
  | cons outer1 holes1 =>
    cases poly2 with
    | nil => simp [intersectPolygons]
    | cons outer2 holes2 =>
      simp only [List.headD_cons] at h
      simp [intersectPolygons, h]

theorem extractPolygons_emptyPoly (lib : GeoLib) (hS : lib.PolygonSound) :
    extractPolygons lib (polygonGeometry emptyPoly) = .ok [[]] := by
  cases h : lib.ToPolygon (polygonGeometry emptyPoly) with
  | ok q =>
    have hq : q = emptyPoly := hS emptyPoly q h
    subst hq
    have := extractPolygons_polygonGeometry lib emptyPoly h
    simpa [polygonRings, emptyPoly] using this
  | error e =>
    have h2 : lib.ToPolygon { GeoJSONType := geojsonPolygon, Coordinates := Dyn.slice2 [] } = .error e := by
      simpa [polygonGeometry, emptyPoly] using h
    simp [extractPolygons, polygonGeometry, emptyPoly, h2, parseRings]
    rfl

/-- The fallback parse of `extractPolygons` rejects every vertex stored by
`getGeometryFromInput`: the vertex is a `[]float64`, the parse expects a
`[]interface{}`. -/
theorem parseCoord_pointDyn (pt : Point) :
    parseCoord (pointDyn pt) = .error "invalid coordinate format" := rfl

/-- When the typed accessor rejects the geometry built for a polygon whose
outer ring has a vertex, `extractPolygons` fails in its fallback parse. -/
theorem extractPolygons_polygonGeometry_of_error (lib : GeoLib) (pt : Point) (pts : List Point)
    (rest : List LineString) (e : String)
    (h : lib.ToPolygon (polygonGeometry { Coordinates := { Coordinates := pt :: pts } :: rest })
      = .error e) :
    extractPolygons lib (polygonGeometry { Coordinates := { Coordinates := pt :: pts } :: rest })
      = .error "invalid coordinate format" := by
  have hr : parseRings ((({ Coordinates := pt :: pts } : LineString) :: rest).map
      fun lineString => ringDyn lineString.Coordinates) = .error "invalid coordinate format" := by
    unfold parseRings
    rw [List.map_cons, List.mapM_cons]
    have : parseRing (ringDyn (pt :: pts)) = .error "invalid coordinate format" := by
      unfold parseRing ringDyn
      rw [List.map_cons, List.mapM_cons, parseCoord_pointDyn]
      rfl
    rw [this]
    rfl
  unfold extractPolygons
  rw [if_pos (show (polygonGeometry _).GeoJSONType = geojsonPolygon from rfl), h]
  simp only [polygonGeometry]
  rw [hr]

/-- Whatever the library, when its typed accessor rejects a polygon whose outer
ring has a vertex, `Intersect` with that polygon as first argument returns the
error of the fallback parse. -/
theorem Intersect_polygon_of_rejected (lib : GeoLib) (pt : Point) (pts : List Point)
    (rest : List LineString) (e : String) (B : Polygon)
    (h : lib.ToPolygon (polygonGeometry { Coordinates := { Coordinates := pt :: pts } :: rest })
      = .error e) :
    Intersect lib (.polygon { Coordinates := { Coordinates := pt :: pts } :: rest }) (.polygon B)
      = .error "invalid coordinate format" :=
  Intersect_of_extract_error_left lib _ _ _ (polygonGeometry B) _ rfl rfl rfl rfl
    (extractPolygons_polygonGeometry_of_error lib pt pts rest e h)

theorem strictLib_rejects_openTriangle :
    strictLib.ToPolygon (polygonGeometry openTriangle) = .error "invalid linear ring" := rfl

theorem isPolygonType_of_extractPolygons (lib : GeoLib) (g : Geometry)
    (A : List (List (List Point))) (h : extractPolygons lib g = .ok A) :
    isPolygonType g.GeoJSONType = true := by
  unfold extractPolygons at h
  unfold isPolygonType
  by_cases h1 : g.GeoJSONType = geojsonPolygon
  · simp [h1]
  · by_cases h2 : g.GeoJSONType = geojsonMultiPolygon
    · simp [h2]
    · simp [h1, h2] at h

theorem length_filterMap_eq_pairs (p : List (List Point)) (B : List (List (List Point))) :
    (B.filterMap (intersectPolygons p)).length =
      ((B.map (Prod.mk p)).filter fun pq => (intersectPolygons pq.1 pq.2).isSome).length := by
  induction B with
  | nil => simp
  | cons q B ih =>
    cases h : intersectPolygons p q <;> simp [List.filterMap_cons, List.filter_cons, h, ih]

theorem length_collectIntersections (A B : List (List (List Point))) :
    (collectIntersections A B).length = pairCount A B := by
  rw [collectIntersections_eq]
  unfold pairCount
  induction A with
  | nil => simp [List.product]
  | cons p A ih =>
    have hp : (p :: A).product B = B.map (Prod.mk p) ++ A.product B := by
      simp [List.product]
    simp only [List.flatMap_cons, List.length_append, ih, length_filterMap_eq_pairs, hp,
      List.filter_append]

theorem createFeatureFromIntersection_cons (lib : GeoLib) (hN : lib.BuildsFeature)
    (xs : List (List (List Point))) (h : xs ≠ []) :
    ∃ bbox, createFeatureFromIntersection lib xs =
      .ok (some { ID := "", Bbox := bbox, Geometry := intersectionGeometry xs,
                  Properties := none }) := by
  obtain ⟨bbox, hb, hl⟩ := calculateBoundingBoxFromIntersection_length xs h
  have hlen : xs.length ≠ 0 := by simpa using h
  refine ⟨bbox, ?_⟩
  simp only [createFeatureFromIntersection, hb, hN _ _ _ _ hl]
  simp [hlen]

theorem intersectionGeometry_one (xs : List (List (List Point))) (h : xs.length = 1) :
    (intersectionGeometry xs).GeoJSONType = geojsonPolygon := by
  match xs, h with
  | [poly], _ => rfl

theorem intersectionGeometry_many (xs : List (List (List Point))) (h : 1 < xs.length) :
    intersectionGeometry xs =
      { GeoJSONType := geojsonMultiPolygon, Coordinates := Dyn.slice3 (xs.map ringsDyn) } := by
  match xs, h with
  | p :: q :: rest, _ => rfl

/-! ## The reference library satisfies the assumptions -/

theorem decodePoint_pointDyn (pt : Point) : decodePoint (pointDyn pt) = some pt := by
  cases pt; rfl

theorem mapM_decodePoint_ringDyn (ring : List Point) :
    (ringDyn ring).mapM decodePoint = some ring := by
  induction ring with
  | nil => rfl
  | cons pt ring ih =>
    unfold ringDyn at ih ⊢
    rw [List.map_cons, List.mapM_cons, decodePoint_pointDyn, ih]
    rfl

theorem decodeLineString_ringDyn (ls : LineString) :
    decodeLineString (ringDyn ls.Coordinates) = some ls := by
  unfold decodeLineString
  rw [mapM_decodePoint_ringDyn]
  rfl

theorem mapM_decodeLineString (rings : List LineString) :
    (rings.map fun lineString => ringDyn lineString.Coordinates).mapM decodeLineString
      = some rings := by
  induction rings with
  | nil => rfl
  | cons ls rings ih =>
    rw [List.map_cons, List.mapM_cons, decodeLineString_ringDyn, ih]
    rfl

theorem decodePolygon_encode (p : Polygon) :
    decodePolygon (p.Coordinates.map fun lineString => ringDyn lineString.Coordinates) = some p := by
  unfold decodePolygon
  rw [mapM_decodeLineString]
  rfl

theorem mapM_decodePolygon (polys : List Polygon) :
    (polys.map fun poly => poly.Coordinates.map fun lineString => ringDyn lineString.Coordinates).mapM
      decodePolygon = some polys := by
  induction polys with
  | nil => rfl
  | cons p polys ih =>
    rw [List.map_cons, List.mapM_cons, decodePolygon_encode, ih]
    rfl

theorem refLib_readsPolygon (p : Polygon) : refLib.ReadsPolygon p := by
  simp only [GeoLib.ReadsPolygon, refLib, polygonGeometry, decodePolygon_encode]
  rfl

theorem refLib_readsMultiPolygon (m : MultiPolygon) : refLib.ReadsMultiPolygon m := by
  simp only [GeoLib.ReadsMultiPolygon, refLib, multiPolygonGeometry, decodeMultiPolygon,
    mapM_decodePolygon]
  rfl

theorem refLib_polygonSound : refLib.PolygonSound := by
  intro p q h
  rw [refLib_readsPolygon p] at h
  injection h with h
  exact h.symm

/-- The validating library reads back the geometry built for a polygon exactly
when every ring of the polygon passes its test. -/
theorem strictLib_toPolygon (p : Polygon) :
    strictLib.ToPolygon (polygonGeometry p) =
      if p.Coordinates.all isLinearRing then .ok p else .error "invalid linear ring" := by
  have h := refLib_readsPolygon p
  unfold GeoLib.ReadsPolygon at h
  simp only [strictLib, h]

theorem strictLib_readsPolygon (p : Polygon) (h : p.Coordinates.all isLinearRing = true) :
    strictLib.ReadsPolygon p := by
  unfold GeoLib.ReadsPolygon
  rw [strictLib_toPolygon, if_pos h]

theorem strictLib_polygonSound : strictLib.PolygonSound := by
  intro p q h
  rw [strictLib_toPolygon] at h
  split_ifs at h
  injection h with h
  exact h.symm

theorem strictLib_buildsFeature : strictLib.BuildsFeature := by
  intro g b p i h; simp [strictLib, refLib, h]

/-! ## Rejected inputs -/

theorem getGeometryFromInput_error_or_tag (a : Input) (h : a.unacceptable = true)
    (hp : a.isNilPointer = false) :
    a.isNil = true ∨ (∃ e, getGeometryFromInput a = .error e) ∨
      (∃ g, getGeometryFromInput a = .ok g ∧ isPolygonType g.GeoJSONType = false) := by
  cases a <;>
    simp_all [Input.unacceptable, Input.isNil, Input.isNilPointer, getGeometryFromInput]

/-- An input that is not a nil pointer is converted without a panic, and never
to the nil pointer. -/
theorem getGeometryFromInput_of_not_nilPointer (a : Input) (hp : a.isNilPointer = false) :
    (∃ e, getGeometryFromInput a = .error e) ∨ (∃ g, getGeometryFromInput a = .ok g) := by
  cases a <;> simp_all [Input.isNilPointer, getGeometryFromInput]

/-- When `getGeometryFromInput` panics on the first argument and the second
argument is not the nil interface value, `Intersect` panics. -/
theorem Intersect_panics_of_getGeometry_panic (lib : GeoLib) (a b : Input)
    (ha : getGeometryFromInput a = .panic) (hb : b.isNil = false) :
    Intersect lib a b = .panic := by
  have na : a.isNil = false := by cases a <;> simp_all [getGeometryFromInput, Input.isNil]
  simp [Intersect, na, hb, ha]

/-- A nil `*geometry.Geometry` as first argument is returned as it is by
`getGeometryFromInput`: an error of the conversion of the second argument is
returned first, and otherwise the read of `geom1.GeoJSONType` panics. -/
theorem Intersect_geometryNilPtr (lib : GeoLib) (b : Input) (hb : b.isNil = false) :
    (∀ e, getGeometryFromInput b = .error e → Intersect lib .geometryNilPtr b = .error e) ∧
    (∀ g, getGeometryFromInput b = .ok g → Intersect lib .geometryNilPtr b = .panic) := by
  have hg : getGeometryFromInput .geometryNilPtr = .nilPointer := rfl
  have hn : Input.isNil .geometryNilPtr = false := rfl
  constructor
  · intro e h
    simp only [Intersect, hn, hb, hg, h]
    rfl
  · intro g h
    simp only [Intersect, hn, hb, hg, h]
    rfl

/-- With no nil pointer among the arguments, an unacceptable argument on
either side makes `Intersect` return an error. -/
theorem Intersect_error_of_unacceptable (lib : GeoLib) (a b : Input)
    (hpa : a.isNilPointer = false) (hpb : b.isNilPointer = false)
    (h : a.unacceptable = true ∨ b.unacceptable = true) :
    ∃ e, Intersect lib a b = .error e := by
  unfold Intersect
  by_cases hn : (a.isNil || b.isNil) = true
  · exact ⟨_, if_pos hn⟩
  · rw [if_neg hn]
    simp only [Bool.or_eq_true, not_or, Bool.not_eq_true] at hn
    rcases getGeometryFromInput_of_not_nilPointer a hpa with ⟨e, ha⟩ | ⟨g1, ha⟩
    · rw [ha]
      exact ⟨e, rfl⟩
    · rcases getGeometryFromInput_of_not_nilPointer b hpb with ⟨e, hb⟩ | ⟨g2, hb⟩
      · rw [ha, hb]
        exact ⟨e, rfl⟩
      · rw [ha, hb]
        have ht : (!isPolygonType g1.GeoJSONType || !isPolygonType g2.GeoJSONType) = true := by
          rcases h with h | h
          · rcases getGeometryFromInput_error_or_tag a h hpa with h1 | ⟨e, h1⟩ | ⟨g, h1, h2⟩
            · simp [hn.1] at h1
            · simp [ha] at h1
            · rw [ha] at h1
              injection h1 with h1
              subst h1
              simp [h2]
          · rcases getGeometryFromInput_error_or_tag b h hpb with h1 | ⟨e, h1⟩ | ⟨g, h1, h2⟩
            · simp [hn.2] at h1
            · simp [hb] at h1
            · rw [hb] at h1
              injection h1 with h1
              subst h1
              simp [h2]
        exact ⟨_, if_pos ht⟩

/-! ## Evaluation of the pair test on the concrete inputs -/

theorem intersectPolygons_squareA_squareB :
    intersectPolygons (polygonRings squareA) (polygonRings squareB) = some (polygonRings squareB) := by
  norm_num [intersectPolygons, polygonRings, squareA, squareB, createTestPolygon,
    calculateBoundingBox, bboxStep, boundingBoxesIntersect, calculatePolygonArea, ringAt,
    List.range, List.range.loop]

theorem intersectPolygons_squareB_squareA :
    intersectPolygons (polygonRings squareB) (polygonRings squareA) = some (polygonRings squareA) := by
  norm_num [intersectPolygons, polygonRings, squareA, squareB, createTestPolygon,
    calculateBoundingBox, bboxStep, boundingBoxesIntersect, calculatePolygonArea, ringAt,
    List.range, List.range.loop]

theorem intersectPolygons_squareC_squareE :
    intersectPolygons (polygonRings squareC) (polygonRings squareE) = some (polygonRings squareE) := by
  norm_num [intersectPolygons, polygonRings, squareC, squareE, createTestPolygon,
    calculateBoundingBox, bboxStep, boundingBoxesIntersect, calculatePolygonArea, ringAt,
    List.range, List.range.loop]

theorem intersectPolygons_holedSquare_squareF :
    intersectPolygons (polygonRings holedSquare) (polygonRings squareF) =
      some (polygonRings squareF) := by
  norm_num [intersectPolygons, polygonRings, holedSquare, holeRing, squareA, squareF,
    createTestPolygon, calculateBoundingBox, bboxStep, boundingBoxesIntersect,
    calculatePolygonArea, ringAt, List.range, List.range.loop]

theorem calculateBoundingBox_squareA :
    calculateBoundingBox (outerRing squareA) = { MinX := 0, MinY := 0, MaxX := 10, MaxY := 10 } := by
  norm_num [outerRing, polygonRings, squareA, createTestPolygon, calculateBoundingBox, bboxStep]

theorem calculateBoundingBox_squareB :
    calculateBoundingBox (outerRing squareB) = { MinX := 5, MinY := 5, MaxX := 15, MaxY := 15 } := by
  norm_num [outerRing, polygonRings, squareB, createTestPolygon, calculateBoundingBox, bboxStep]

theorem calculateBoundingBox_squareC :
    calculateBoundingBox (outerRing squareC) = { MinX := 0, MinY := 0, MaxX := 5, MaxY := 5 } := by
  norm_num [outerRing, polygonRings, squareC, createTestPolygon, calculateBoundingBox, bboxStep]

theorem calculateBoundingBox_squareD :
    calculateBoundingBox (outerRing squareD) = { MinX := 10, MinY := 10, MaxX := 15, MaxY := 15 } := by
  norm_num [outerRing, polygonRings, squareD, createTestPolygon, calculateBoundingBox, bboxStep]

theorem calculateBoundingBox_squareE :
    calculateBoundingBox (outerRing squareE) = { MinX := 5, MinY := 0, MaxX := 10, MaxY := 5 } := by
  norm_num [outerRing, polygonRings, squareE, createTestPolygon, calculateBoundingBox, bboxStep]

theorem calculateBoundingBox_squareF :
    calculateBoundingBox (outerRing squareF) = { MinX := 4, MinY := 4, MaxX := 6, MaxY := 6 } := by
  norm_num [outerRing, polygonRings, squareF, createTestPolygon, calculateBoundingBox, bboxStep]

theorem calculateBoundingBox_holeRing :
    calculateBoundingBox holeRing.Coordinates = { MinX := 2, MinY := 2, MaxX := 8, MaxY := 8 } := by
  norm_num [holeRing, calculateBoundingBox, bboxStep]

theorem polygonRings_ne_nil_of_outerRing (p : Polygon) (h : outerRing p ≠ []) :
    polygonRings p ≠ [] := by
  intro h0
  simp [outerRing, h0] at h

/-! ## The claims -/

/-- C1 (the code departs from the claim): on the overlapping squares
A = [0,0]-[10,10] and B = [5,5]-[15,15], `Intersect` returns a Polygon feature
holding the whole of B, with bounding box (5,5,15,15) and outer-ring shoelace
area 100, where the claim expects the square [5,5]-[10,10] with bounding box
(5,5,10,10) and area 25. -/
theorem C1_overlapping_squares_yield_whole_second_square (lib : GeoLib)
    (hA : lib.ReadsPolygon squareA) (hB : lib.ReadsPolygon squareB) (hN : lib.BuildsFeature) :
    Intersect lib (.polygon squareA) (.polygon squareB) =
        .ok (some { ID := "", Bbox := [5, 5, 15, 15], Geometry := polygonGeometry squareB,
                    Properties := none })
      ∧ calculateBoundingBox (outerRing squareB) = { MinX := 5, MinY := 5, MaxX := 15, MaxY := 15 }
      ∧ calculatePolygonArea (outerRing squareB) = 100 := by
  refine ⟨?_, calculateBoundingBox_squareB, ?_⟩
  · rw [Intersect_polygons_of_some lib squareA squareB squareB hA hB hN
      (by simp [polygonRings, squareB, createTestPolygon])
      intersectPolygons_squareA_squareB, calculateBoundingBox_squareB]
    rfl
  · norm_num [outerRing, polygonRings, squareB, createTestPolygon, calculatePolygonArea, ringAt,
      List.range, List.range.loop]

/-- Witness for C1: the reference library satisfies the hypotheses. -/
theorem C1_overlapping_squares_witness :
    refLib.ReadsPolygon squareA ∧ refLib.ReadsPolygon squareB ∧ refLib.BuildsFeature ∧
    (Intersect refLib (.polygon squareA) (.polygon squareB) =
        .ok (some { ID := "", Bbox := [5, 5, 15, 15], Geometry := polygonGeometry squareB,
                    Properties := none })
      ∧ calculateBoundingBox (outerRing squareB) = { MinX := 5, MinY := 5, MaxX := 15, MaxY := 15 }
      ∧ calculatePolygonArea (outerRing squareB) = 100) :=
  ⟨rfl, rfl, refLib_buildsFeature,
    C1_overlapping_squares_yield_whole_second_square refLib rfl rfl refLib_buildsFeature⟩

/-- C2 (the code departs from the claim): the rectangles [0,0]-[5,5] and
[5,0]-[10,5] only touch along the edge x = 5 (the first ends where the second
begins), so they share no area; `Intersect` nevertheless returns no null but a
Polygon feature holding the whole second rectangle. -/
theorem C2_touching_rectangles_yield_second_rectangle (lib : GeoLib)
    (hC : lib.ReadsPolygon squareC) (hE : lib.ReadsPolygon squareE) (hN : lib.BuildsFeature) :
    (calculateBoundingBox (outerRing squareC)).MaxX = (calculateBoundingBox (outerRing squareE)).MinX
      ∧ Intersect lib (.polygon squareC) (.polygon squareE) =
        .ok (some { ID := "", Bbox := [5, 0, 10, 5], Geometry := polygonGeometry squareE,
                    Properties := none }) := by
  refine ⟨by rw [calculateBoundingBox_squareC, calculateBoundingBox_squareE], ?_⟩
  rw [Intersect_polygons_of_some lib squareC squareE squareE hC hE hN
    (by simp [polygonRings, squareE, createTestPolygon])
    intersectPolygons_squareC_squareE, calculateBoundingBox_squareE]
  rfl

/-- Witness for C2: the reference library satisfies the hypotheses. -/
theorem C2_touching_rectangles_witness :
    refLib.ReadsPolygon squareC ∧ refLib.ReadsPolygon squareE ∧ refLib.BuildsFeature ∧
    ((calculateBoundingBox (outerRing squareC)).MaxX = (calculateBoundingBox (outerRing squareE)).MinX
      ∧ Intersect refLib (.polygon squareC) (.polygon squareE) =
        .ok (some { ID := "", Bbox := [5, 0, 10, 5], Geometry := polygonGeometry squareE,
                    Properties := none })) :=
  ⟨rfl, rfl, refLib_buildsFeature,
    C2_touching_rectangles_yield_second_rectangle refLib rfl rfl refLib_buildsFeature⟩

/-- C3 (the code departs from the claim): for the squares A = [0,0]-[10,10] and
B = [5,5]-[15,15], whose areas tie, `Intersect(A, B)` returns the whole of B
(bounding box (5,5,15,15)) while `Intersect(B, A)` returns the whole of A
(bounding box (0,0,10,10)): the two orders give different regions. -/
theorem C3_swapped_arguments_yield_different_regions (lib : GeoLib)
    (hA : lib.ReadsPolygon squareA) (hB : lib.ReadsPolygon squareB) (hN : lib.BuildsFeature) :
    Intersect lib (.polygon squareA) (.polygon squareB) =
        .ok (some { ID := "", Bbox := [5, 5, 15, 15], Geometry := polygonGeometry squareB,
                    Properties := none })
      ∧ Intersect lib (.polygon squareB) (.polygon squareA) =
        .ok (some { ID := "", Bbox := [0, 0, 10, 10], Geometry := polygonGeometry squareA,
                    Properties := none }) := by
  constructor
  · rw [Intersect_polygons_of_some lib squareA squareB squareB hA hB hN
      (by simp [polygonRings, squareB, createTestPolygon])
      intersectPolygons_squareA_squareB, calculateBoundingBox_squareB]
    rfl
  · rw [Intersect_polygons_of_some lib squareB squareA squareA hB hA hN
      (by simp [polygonRings, squareA, createTestPolygon])
      intersectPolygons_squareB_squareA, calculateBoundingBox_squareA]
    rfl

/-- Witness for C3: the reference library satisfies the hypotheses. -/
theorem C3_swapped_arguments_witness :
    refLib.ReadsPolygon squareA ∧ refLib.ReadsPolygon squareB ∧ refLib.BuildsFeature ∧
    (Intersect refLib (.polygon squareA) (.polygon squareB) =
        .ok (some { ID := "", Bbox := [5, 5, 15, 15], Geometry := polygonGeometry squareB,
                    Properties := none })
      ∧ Intersect refLib (.polygon squareB) (.polygon squareA) =
        .ok (some { ID := "", Bbox := [0, 0, 10, 10], Geometry := polygonGeometry squareA,
                    Properties := none })) :=
  ⟨rfl, rfl, refLib_buildsFeature,
    C3_swapped_arguments_yield_different_regions refLib rfl rfl refLib_buildsFeature⟩

/-- C4 (the code departs from the claim): for A = [0,0]-[10,10] and
B = [5,5]-[15,15] the result of `Intersect(A, B)` is non-null and holds the
rings of B, whose vertex (15,15) lies outside the outer-ring bounding box of A
(its MaxX and MaxY are 10): the result is not contained in both inputs. -/
theorem C4_result_vertex_outside_first_bounding_box (lib : GeoLib)
    (hA : lib.ReadsPolygon squareA) (hB : lib.ReadsPolygon squareB) (hN : lib.BuildsFeature) :
    Intersect lib (.polygon squareA) (.polygon squareB) =
        .ok (some { ID := "", Bbox := [5, 5, 15, 15], Geometry := polygonGeometry squareB,
                    Properties := none })
      ∧ ({ Lng := 15, Lat := 15 } : Point) ∈ outerRing squareB
      ∧ (calculateBoundingBox (outerRing squareA)).MaxX < 15
      ∧ (calculateBoundingBox (outerRing squareA)).MaxY < 15 := by
  refine ⟨?_, ?_, ?_, ?_⟩
  · rw [Intersect_polygons_of_some lib squareA squareB squareB hA hB hN
      (by simp [polygonRings, squareB, createTestPolygon])
      intersectPolygons_squareA_squareB, calculateBoundingBox_squareB]
    rfl
  · simp [outerRing, polygonRings, squareB, createTestPolygon]
  · rw [calculateBoundingBox_squareA]; norm_num
  · rw [calculateBoundingBox_squareA]; norm_num

/-- Witness for C4: the reference library satisfies the hypotheses. -/
theorem C4_result_vertex_outside_witness :
    refLib.ReadsPolygon squareA ∧ refLib.ReadsPolygon squareB ∧ refLib.BuildsFeature ∧
    (Intersect refLib (.polygon squareA) (.polygon squareB) =
        .ok (some { ID := "", Bbox := [5, 5, 15, 15], Geometry := polygonGeometry squareB,
                    Properties := none })
      ∧ ({ Lng := 15, Lat := 15 } : Point) ∈ outerRing squareB
      ∧ (calculateBoundingBox (outerRing squareA)).MaxX < 15
      ∧ (calculateBoundingBox (outerRing squareA)).MaxY < 15) :=
  ⟨rfl, rfl, refLib_buildsFeature,
    C4_result_vertex_outside_first_bounding_box refLib rfl rfl refLib_buildsFeature⟩

/-- C5 (counterexample): the triangle T = (0,0), (1,0), (0,1), its ring left
open, has a non-empty outer ring; the library's `ToPolygon` rejects it (a ring
of three positions, not closed), the fallback parse of `extractPolygons` then
fails on the first vertex, and `Intersect(T, T)` returns the error
"invalid coordinate format" and no feature. -/
theorem C5_open_ring_self_intersection_is_an_error :
    outerRing openTriangle ≠ [] ∧
    strictLib.ToPolygon (polygonGeometry openTriangle) = .error "invalid linear ring" ∧
    Intersect strictLib (.polygon openTriangle) (.polygon openTriangle) =
      .error "invalid coordinate format" :=
  ⟨by decide, rfl, rfl⟩

/-- C5 (amended): for every polygon P whose outer ring is non-empty and which
the library's `ToPolygon` reads back, `Intersect(P, P)` returns no error and a
non-null feature whose geometry is the Polygon geometry of P (type tag Polygon,
rings exactly the rings of P), with the bounding box of P's outer ring. -/
theorem C5_self_intersection_returns_polygon (lib : GeoLib) (P : Polygon)
    (hP : outerRing P ≠ []) (hR : lib.ReadsPolygon P) (hN : lib.BuildsFeature) :
    Intersect lib (.polygon P) (.polygon P) =
      .ok (some { ID := "", Bbox := (calculateBoundingBox (outerRing P)).toList,
                  Geometry := polygonGeometry P, Properties := none })
    ∧ polygonGeometry P =
      { GeoJSONType := geojsonPolygon, Coordinates := Dyn.slice2 (ringsDyn (polygonRings P)) } := by
  refine ⟨?_, polygonGeometry_eq P⟩
  have hne := polygonRings_ne_nil_of_outerRing P hP
  apply Intersect_polygons_of_some lib P P P hR hR hN hne
  cases hr : polygonRings P with
  | nil => exact absurd hr hne
  | cons outer holes =>
    apply intersectPolygons_self
    simpa [outerRing, hr] using hP

/-- Witness for C5: the square [0,0]-[10,10], whose ring is closed and has
five positions, under the library with the ring validation. -/
theorem C5_self_intersection_witness :
    outerRing squareA ≠ [] ∧ strictLib.ReadsPolygon squareA ∧ strictLib.BuildsFeature ∧
    (Intersect strictLib (.polygon squareA) (.polygon squareA) =
      .ok (some { ID := "", Bbox := (calculateBoundingBox (outerRing squareA)).toList,
                  Geometry := polygonGeometry squareA, Properties := none })
    ∧ polygonGeometry squareA =
      { GeoJSONType := geojsonPolygon,
        Coordinates := Dyn.slice2 (ringsDyn (polygonRings squareA)) }) :=
  ⟨by decide, rfl, strictLib_buildsFeature,
    C5_self_intersection_returns_polygon strictLib squareA (by decide) rfl
      strictLib_buildsFeature⟩

/-- C6 (counterexample): the open triangle T = (0,0), (1,0), (0,1) has the
outer-ring bounding box (0,0,1,1) and the square D = [10,10]-[15,15] the box
(10,10,15,15), so T.maxX < D.minX; the library's `ToPolygon` rejects T, and
`Intersect(T, D)` returns the error "invalid coordinate format" before any
bounding box is tested, not null. -/
theorem C6_open_ring_with_disjoint_box_is_an_error :
    (calculateBoundingBox (outerRing openTriangle)).MaxX <
      (calculateBoundingBox (outerRing squareD)).MinX ∧
    strictLib.ToPolygon (polygonGeometry openTriangle) = .error "invalid linear ring" ∧
    Intersect strictLib (.polygon openTriangle) (.polygon squareD) =
      .error "invalid coordinate format" :=
  ⟨by norm_num [outerRing, polygonRings, openTriangle, squareD, createTestPolygon,
      calculateBoundingBox, bboxStep], rfl, rfl⟩

/-- C6 (amended): for all polygons A and B which the library's `ToPolygon`
reads back and whose outer-ring bounding boxes do not overlap
(A.maxX < B.minX or B.maxX < A.minX or A.maxY < B.minY or B.maxY < A.minY),
`Intersect(A, B)` returns null and no error. -/
theorem C6_disjoint_bounding_boxes_return_null (lib : GeoLib) (A B : Polygon)
    (hA : lib.ReadsPolygon A) (hB : lib.ReadsPolygon B)
    (h : (calculateBoundingBox (outerRing A)).MaxX < (calculateBoundingBox (outerRing B)).MinX ∨
         (calculateBoundingBox (outerRing B)).MaxX < (calculateBoundingBox (outerRing A)).MinX ∨
         (calculateBoundingBox (outerRing A)).MaxY < (calculateBoundingBox (outerRing B)).MinY ∨
         (calculateBoundingBox (outerRing B)).MaxY < (calculateBoundingBox (outerRing A)).MinY) :
    Intersect lib (.polygon A) (.polygon B) = .ok none := by
  rw [Intersect_polygons lib A B hA hB,
    intersectPolygons_of_not_boundingBoxesIntersect (polygonRings A) (polygonRings B)]
  · rw [Option.toList, createFeatureFromIntersection_nil lib]
    rfl
  · unfold outerRing at h
    generalize calculateBoundingBox ((polygonRings A).headD []) = a at h ⊢
    generalize calculateBoundingBox ((polygonRings B).headD []) = b at h ⊢
    simp only [boundingBoxesIntersect, Bool.not_eq_false_eq_eq_true, Bool.or_eq_true,
      decide_eq_true_eq, Bool.not_eq_eq_eq_not, Bool.not_true, Bool.not_false]
    tauto

/-- Witness for C6: the squares [0,0]-[5,5] and [10,10]-[15,15] of the tests,
under the library with the ring validation. -/
theorem C6_disjoint_bounding_boxes_witness :
    strictLib.ReadsPolygon squareC ∧ strictLib.ReadsPolygon squareD ∧
    (calculateBoundingBox (outerRing squareC)).MaxX < (calculateBoundingBox (outerRing squareD)).MinX ∧
    Intersect strictLib (.polygon squareC) (.polygon squareD) = .ok none :=
  ⟨rfl, rfl, by rw [calculateBoundingBox_squareC, calculateBoundingBox_squareD]; norm_num,
    C6_disjoint_bounding_boxes_return_null strictLib squareC squareD rfl rfl
      (Or.inl (by rw [calculateBoundingBox_squareC, calculateBoundingBox_squareD]; norm_num))⟩

/-- C7 (the code departs from the claim): P is the square [0,0]-[10,10] with
the hole [2,2]-[8,8] and Q the square [4,4]-[6,6], which lies strictly inside
the hole, so P and Q share no area; `Intersect(P, Q)` nevertheless returns no
null but a Polygon feature holding the whole of Q: the hole is not subtracted. -/
theorem C7_polygon_inside_hole_is_returned (lib : GeoLib)
    (hP : lib.ReadsPolygon holedSquare) (hQ : lib.ReadsPolygon squareF) (hN : lib.BuildsFeature) :
    polygonRings holedSquare = [outerRing squareA, holeRing.Coordinates]
      ∧ calculateBoundingBox holeRing.Coordinates = { MinX := 2, MinY := 2, MaxX := 8, MaxY := 8 }
      ∧ calculateBoundingBox (outerRing squareF) = { MinX := 4, MinY := 4, MaxX := 6, MaxY := 6 }
      ∧ Intersect lib (.polygon holedSquare) (.polygon squareF) =
        .ok (some { ID := "", Bbox := [4, 4, 6, 6], Geometry := polygonGeometry squareF,
                    Properties := none }) := by
  refine ⟨rfl, calculateBoundingBox_holeRing, calculateBoundingBox_squareF, ?_⟩
  rw [Intersect_polygons_of_some lib holedSquare squareF squareF hP hQ hN
    (by simp [polygonRings, squareF, createTestPolygon])
    intersectPolygons_holedSquare_squareF, calculateBoundingBox_squareF]
  rfl

/-- Witness for C7: the reference library satisfies the hypotheses. -/
theorem C7_polygon_inside_hole_witness :
    refLib.ReadsPolygon holedSquare ∧ refLib.ReadsPolygon squareF ∧ refLib.BuildsFeature ∧
    (polygonRings holedSquare = [outerRing squareA, holeRing.Coordinates]
      ∧ calculateBoundingBox holeRing.Coordinates = { MinX := 2, MinY := 2, MaxX := 8, MaxY := 8 }
      ∧ calculateBoundingBox (outerRing squareF) = { MinX := 4, MinY := 4, MaxX := 6, MaxY := 6 }
      ∧ Intersect refLib (.polygon holedSquare) (.polygon squareF) =
        .ok (some { ID := "", Bbox := [4, 4, 6, 6], Geometry := polygonGeometry squareF,
                    Properties := none })) :=
  ⟨rfl, rfl, refLib_buildsFeature,
    C7_polygon_inside_hole_is_returned refLib rfl rfl refLib_buildsFeature⟩

/-- C8 (counterexample): for the open triangle T = (0,0), (1,0), (0,1), which
the library's `ToPolygon` rejects, `Intersect(empty, T)` and
`Intersect(T, empty)` both return the error "invalid coordinate format", not
null. -/
theorem C8_open_ring_with_empty_polygon_is_an_error :
    strictLib.ToPolygon (polygonGeometry openTriangle) = .error "invalid linear ring" ∧
    Intersect strictLib (.polygon emptyPoly) (.polygon openTriangle) =
      .error "invalid coordinate format" ∧
    Intersect strictLib (.polygon openTriangle) (.polygon emptyPoly) =
      .error "invalid coordinate format" :=
  ⟨rfl, rfl, rfl⟩

/-- C8 (amended): for every polygon Q which the library's `ToPolygon` reads
back, `Intersect` of Q with the empty polygon (zero rings) on either side
returns a null feature and no error. -/
theorem C8_empty_polygon_returns_null (lib : GeoLib) (Q : Polygon)
    (hS : lib.PolygonSound) (hQ : lib.ReadsPolygon Q) :
    Intersect lib (.polygon emptyPoly) (.polygon Q) = .ok none ∧
    Intersect lib (.polygon Q) (.polygon emptyPoly) = .ok none := by
  have hE := extractPolygons_emptyPoly lib hS
  have hX := extractPolygons_polygonGeometry lib Q hQ
  constructor
  · rw [Intersect_of_extract lib (.polygon emptyPoly) (.polygon Q) (polygonGeometry emptyPoly)
      (polygonGeometry Q) [[]] [polygonRings Q] rfl rfl rfl rfl hE hX,
      collectIntersections_single]
    simp [intersectPolygons, createFeatureFromIntersection_nil, Outcome.returned]
  · rw [Intersect_of_extract lib (.polygon Q) (.polygon emptyPoly) (polygonGeometry Q)
      (polygonGeometry emptyPoly) [polygonRings Q] [[]] rfl rfl rfl rfl hX hE,
      collectIntersections_single]
    cases polygonRings Q <;>
      simp [intersectPolygons, createFeatureFromIntersection_nil, Outcome.returned]

/-- Witness for C8: the square [0,0]-[10,10] under the library with the ring
validation. -/
theorem C8_empty_polygon_witness :
    strictLib.PolygonSound ∧ strictLib.ReadsPolygon squareA ∧
    (Intersect strictLib (.polygon emptyPoly) (.polygon squareA) = .ok none ∧
     Intersect strictLib (.polygon squareA) (.polygon emptyPoly) = .ok none) :=
  ⟨strictLib_polygonSound, rfl,
    C8_empty_polygon_returns_null strictLib squareA strictLib_polygonSound rfl⟩

/-- C9 (the code departs from the claim): called with the nil pointer
`(*geometry.Polygon)(nil)`, `(*geometry.MultiPolygon)(nil)` or
`(*feature.Feature)(nil)` as first argument and any second argument other
than the nil interface value (a `geometry.Point`, say), `Intersect` passes the
test `poly1 == nil` and panics in `getGeometryFromInput`, where the claim has
an error returned.  When neither argument is a nil pointer, `Intersect` returns
an error (and so no feature) whenever either argument is nil, is a value
outside the accepted shapes (such as a Point or a LineString), or is a Feature
or Geometry whose type tag is neither Polygon nor MultiPolygon, whatever the
other argument and the library are. -/
theorem C9_nil_pointer_argument_panics (lib : GeoLib) (a b : Input) :
    (b.isNil = false →
      Intersect lib .polygonNilPtr b = .panic ∧
      Intersect lib .multiPolygonNilPtr b = .panic ∧
      Intersect lib .featureNilPtr b = .panic) ∧
    (a.isNilPointer = false → b.isNilPointer = false →
      a.unacceptable = true ∨ b.unacceptable = true → ∃ e, Intersect lib a b = .error e) :=
  ⟨fun hb => ⟨Intersect_panics_of_getGeometry_panic lib _ b rfl hb,
      Intersect_panics_of_getGeometry_panic lib _ b rfl hb,
      Intersect_panics_of_getGeometry_panic lib _ b rfl hb⟩,
    Intersect_error_of_unacceptable lib a b⟩

/-- Witness for C9: the nil `*geometry.Polygon` against a Point value panics;
a Point value against the square [0,0]-[10,10] is an error. -/
theorem C9_nil_pointer_argument_witness :
    Input.isNil (.point { Lng := 0, Lat := 0 }) = false ∧
    Intersect refLib .polygonNilPtr (.point { Lng := 0, Lat := 0 }) = .panic ∧
    Input.unacceptable (.point { Lng := 0, Lat := 0 }) = true ∧
    ∃ e, Intersect refLib (.point { Lng := 0, Lat := 0 }) (.polygon squareA) = .error e :=
  ⟨rfl,
    ((C9_nil_pointer_argument_panics refLib (.point { Lng := 0, Lat := 0 })
      (.point { Lng := 0, Lat := 0 })).1 rfl).1,
    rfl,
    (C9_nil_pointer_argument_panics refLib (.point { Lng := 0, Lat := 0 })
      (.polygon squareA)).2 rfl rfl (Or.inl rfl)⟩

/-- C10: for all inputs resolved to the polygon lists A and B, with k the
number of pairs (p in A, q in B) on which the pair test `intersectPolygons` is
not nil: `Intersect` returns null when k = 0, a Polygon-typed feature when
k = 1, and a MultiPolygon-typed feature with exactly k member polygons when
k > 1. -/
theorem C10_result_shape_by_pair_count (lib : GeoLib) (a b : Input) (g1 g2 : Geometry)
    (A B : List (List (List Point)))
    (h1 : getGeometryFromInput a = .ok g1) (h2 : getGeometryFromInput b = .ok g2)
    (e1 : extractPolygons lib g1 = .ok A) (e2 : extractPolygons lib g2 = .ok B)
    (hN : lib.BuildsFeature) :
    (pairCount A B = 0 → Intersect lib a b = .ok none) ∧
    (pairCount A B = 1 → ∃ f, Intersect lib a b = .ok (some f) ∧
      f.Geometry.GeoJSONType = geojsonPolygon) ∧
    (1 < pairCount A B → ∃ f members, Intersect lib a b = .ok (some f) ∧
      f.Geometry.GeoJSONType = geojsonMultiPolygon ∧
      f.Geometry.Coordinates = Dyn.slice3 members ∧ members.length = pairCount A B) := by
  have hI := Intersect_of_extract lib a b g1 g2 A B h1 h2
    (isPolygonType_of_extractPolygons lib g1 A e1) (isPolygonType_of_extractPolygons lib g2 B e2)
    e1 e2
  have hk := length_collectIntersections A B
  refine ⟨?_, ?_, ?_⟩
  · intro h0
    rw [← hk] at h0
    rw [hI, List.length_eq_zero.mp h0, createFeatureFromIntersection_nil lib]
    rfl
  · intro hk1
    rw [← hk] at hk1
    obtain ⟨bbox, hf⟩ := createFeatureFromIntersection_cons lib hN (collectIntersections A B)
      (by intro h0; simp [h0] at hk1)
    exact ⟨_, hI.trans (by rw [hf]; rfl), intersectionGeometry_one _ hk1⟩
  · intro hk2
    rw [← hk] at hk2 ⊢
    obtain ⟨bbox, hf⟩ := createFeatureFromIntersection_cons lib hN (collectIntersections A B)
      (by intro h0; simp [h0] at hk2)
    refine ⟨_, (collectIntersections A B).map ringsDyn, hI.trans (by rw [hf]; rfl), ?_, ?_, ?_⟩
    · simp [intersectionGeometry_many _ hk2]
    · simp [intersectionGeometry_many _ hk2]
    · simp

/-- Witness for C10: the multi-polygon of the squares [0,0]-[5,5] and
[10,10]-[15,15] against itself under the reference library. -/
theorem C10_result_shape_witness :
    getGeometryFromInput (.multiPolygon twoSquares) = .ok (multiPolygonGeometry twoSquares) ∧
    extractPolygons refLib (multiPolygonGeometry twoSquares) =
      .ok (twoSquares.Coordinates.map polygonRings) ∧
    refLib.BuildsFeature ∧
    ((pairCount (twoSquares.Coordinates.map polygonRings)
        (twoSquares.Coordinates.map polygonRings) = 0 →
      Intersect refLib (.multiPolygon twoSquares) (.multiPolygon twoSquares) = .ok none) ∧
    (pairCount (twoSquares.Coordinates.map polygonRings)
        (twoSquares.Coordinates.map polygonRings) = 1 →
      ∃ f, Intersect refLib (.multiPolygon twoSquares) (.multiPolygon twoSquares) = .ok (some f) ∧
        f.Geometry.GeoJSONType = geojsonPolygon) ∧
    (1 < pairCount (twoSquares.Coordinates.map polygonRings)
        (twoSquares.Coordinates.map polygonRings) →
      ∃ f members,
        Intersect refLib (.multiPolygon twoSquares) (.multiPolygon twoSquares) = .ok (some f) ∧
        f.Geometry.GeoJSONType = geojsonMultiPolygon ∧
        f.Geometry.Coordinates = Dyn.slice3 members ∧
        members.length = pairCount (twoSquares.Coordinates.map polygonRings)
          (twoSquares.Coordinates.map polygonRings))) :=
  ⟨rfl, extractPolygons_multiPolygonGeometry refLib twoSquares (refLib_readsMultiPolygon twoSquares),
    refLib_buildsFeature,
    C10_result_shape_by_pair_count refLib (.multiPolygon twoSquares) (.multiPolygon twoSquares)
      (multiPolygonGeometry twoSquares) (multiPolygonGeometry twoSquares)
      (twoSquares.Coordinates.map polygonRings) (twoSquares.Coordinates.map polygonRings)
      rfl rfl
      (extractPolygons_multiPolygonGeometry refLib twoSquares (refLib_readsMultiPolygon twoSquares))
      (extractPolygons_multiPolygonGeometry refLib twoSquares (refLib_readsMultiPolygon twoSquares))
      refLib_buildsFeature⟩

/-! ## Lemmas on the result bounding box -/

/-- The loop of `calculateBoundingBox` from box `b0` over `ring`: the result
contains `b0` and every point of `ring`, and each entry is an entry of `b0` or
the coordinate of a point of `ring`. -/
theorem foldl_bboxStep_spec (ring : List Point) (b0 : BoundingBox) :
    ((ring.foldl bboxStep b0).MinX ≤ b0.MinX ∧ (ring.foldl bboxStep b0).MinY ≤ b0.MinY ∧
      b0.MaxX ≤ (ring.foldl bboxStep b0).MaxX ∧ b0.MaxY ≤ (ring.foldl bboxStep b0).MaxY) ∧
    (∀ p ∈ ring, (ring.foldl bboxStep b0).MinX ≤ p.Lng ∧ p.Lng ≤ (ring.foldl bboxStep b0).MaxX ∧
      (ring.foldl bboxStep b0).MinY ≤ p.Lat ∧ p.Lat ≤ (ring.foldl bboxStep b0).MaxY) ∧
    ((ring.foldl bboxStep b0).MinX = b0.MinX ∨ ∃ p ∈ ring, p.Lng = (ring.foldl bboxStep b0).MinX) ∧
    ((ring.foldl bboxStep b0).MinY = b0.MinY ∨ ∃ p ∈ ring, p.Lat = (ring.foldl bboxStep b0).MinY) ∧
    ((ring.foldl bboxStep b0).MaxX = b0.MaxX ∨ ∃ p ∈ ring, p.Lng = (ring.foldl bboxStep b0).MaxX) ∧
    ((ring.foldl bboxStep b0).MaxY = b0.MaxY ∨ ∃ p ∈ ring, p.Lat = (ring.foldl bboxStep b0).MaxY) := by
  induction ring generalizing b0 with
  | nil => simp
  | cons q ring ih =>
    obtain ⟨⟨h1, h2, h3, h4⟩, hall, e1, e2, e3, e4⟩ := ih (bboxStep b0 q)
    have s1 : (bboxStep b0 q).MinX ≤ b0.MinX ∧ (bboxStep b0 q).MinX ≤ q.Lng ∧
        ((bboxStep b0 q).MinX = b0.MinX ∨ (bboxStep b0 q).MinX = q.Lng) := by
      simp only [bboxStep]; split_ifs with h
      · exact ⟨le_of_lt h, le_refl _, Or.inr rfl⟩
      · exact ⟨le_refl _, not_lt.mp h, Or.inl rfl⟩
    have s2 : (bboxStep b0 q).MinY ≤ b0.MinY ∧ (bboxStep b0 q).MinY ≤ q.Lat ∧
        ((bboxStep b0 q).MinY = b0.MinY ∨ (bboxStep b0 q).MinY = q.Lat) := by
      simp only [bboxStep]; split_ifs with h
      · exact ⟨le_of_lt h, le_refl _, Or.inr rfl⟩
      · exact ⟨le_refl _, not_lt.mp h, Or.inl rfl⟩
    have s3 : b0.MaxX ≤ (bboxStep b0 q).MaxX ∧ q.Lng ≤ (bboxStep b0 q).MaxX ∧
        ((bboxStep b0 q).MaxX = b0.MaxX ∨ (bboxStep b0 q).MaxX = q.Lng) := by
      simp only [bboxStep]; split_ifs with h
      · exact ⟨le_of_lt h, le_refl _, Or.inr rfl⟩
      · exact ⟨le_refl _, not_lt.mp h, Or.inl rfl⟩
    have s4 : b0.MaxY ≤ (bboxStep b0 q).MaxY ∧ q.Lat ≤ (bboxStep b0 q).MaxY ∧
        ((bboxStep b0 q).MaxY = b0.MaxY ∨ (bboxStep b0 q).MaxY = q.Lat) := by
      simp only [bboxStep]; split_ifs with h
      · exact ⟨le_of_lt h, le_refl _, Or.inr rfl⟩
      · exact ⟨le_refl _, not_lt.mp h, Or.inl rfl⟩
    simp only [List.foldl_cons, List.mem_cons, forall_eq_or_imp, exists_eq_or_imp]
    refine ⟨⟨le_trans h1 s1.1, le_trans h2 s2.1, le_trans s3.1 h3, le_trans s4.1 h4⟩,
      ⟨⟨le_trans h1 s1.2.1, le_trans s3.2.1 h3, le_trans h2 s2.2.1, le_trans s4.2.1 h4⟩, hall⟩,
      ?_, ?_, ?_, ?_⟩
    · rcases e1 with e | e
      · rcases s1.2.2 with s | s
        · exact Or.inl (e.trans s)
        · exact Or.inr (Or.inl (e.trans s).symm)
      · exact Or.inr (Or.inr e)
    · rcases e2 with e | e
      · rcases s2.2.2 with s | s
        · exact Or.inl (e.trans s)
        · exact Or.inr (Or.inl (e.trans s).symm)
      · exact Or.inr (Or.inr e)
    · rcases e3 with e | e
      · rcases s3.2.2 with s | s
        · exact Or.inl (e.trans s)
        · exact Or.inr (Or.inl (e.trans s).symm)
      · exact Or.inr (Or.inr e)
    · rcases e4 with e | e
      · rcases s4.2.2 with s | s
        · exact Or.inl (e.trans s)
        · exact Or.inr (Or.inl (e.trans s).symm)
      · exact Or.inr (Or.inr e)

/-- The box of `calculateBoundingBox` is the tight bounding box of a non-empty
ring. -/
theorem calculateBoundingBox_tight (ring : List Point) (h : ring ≠ []) :
    IsTightBox ring (calculateBoundingBox ring).MinX (calculateBoundingBox ring).MinY
      (calculateBoundingBox ring).MaxX (calculateBoundingBox ring).MaxY := by
  cases ring with
  | nil => exact absurd rfl h
  | cons p0 rest =>
    obtain ⟨_, hall, e1, e2, e3, e4⟩ := foldl_bboxStep_spec (p0 :: rest)
      { MinX := p0.Lng, MinY := p0.Lat, MaxX := p0.Lng, MaxY := p0.Lat }
    have hm : p0 ∈ p0 :: rest := by simp
    unfold calculateBoundingBox
    refine ⟨hall, ?_, ?_, ?_, ?_⟩
    · rcases e1 with e | e
      · exact ⟨p0, hm, e.symm⟩
      · exact e
    · rcases e2 with e | e
      · exact ⟨p0, hm, e.symm⟩
      · exact e
    · rcases e3 with e | e
      · exact ⟨p0, hm, e.symm⟩
      · exact e
    · rcases e4 with e | e
      · exact ⟨p0, hm, e.symm⟩
      · exact e

/-- The union step of `calculateBoundingBoxFromIntersection`: the
component-wise minimum of the minima and maximum of the maxima of two tight
boxes is the tight box of the two point lists together. -/
theorem IsTightBox.union (P Q : List Point) (a1 a2 a3 a4 b1 b2 b3 b4 : ℚ)
    (hP : IsTightBox P a1 a2 a3 a4) (hQ : IsTightBox Q b1 b2 b3 b4) :
    IsTightBox (P ++ Q) (if b1 < a1 then b1 else a1) (if b2 < a2 then b2 else a2)
      (if b3 > a3 then b3 else a3) (if b4 > a4 then b4 else a4) := by
  obtain ⟨pall, ⟨p1, hp1, e1⟩, ⟨p2, hp2, e2⟩, ⟨p3, hp3, e3⟩, ⟨p4, hp4, e4⟩⟩ := hP
  obtain ⟨qall, ⟨q1, hq1, f1⟩, ⟨q2, hq2, f2⟩, ⟨q3, hq3, f3⟩, ⟨q4, hq4, f4⟩⟩ := hQ
  refine ⟨?_, ?_, ?_, ?_, ?_⟩
  · intro p hp
    rcases List.mem_append.mp hp with hp | hp
    · obtain ⟨h1, h2, h3, h4⟩ := pall p hp
      refine ⟨?_, ?_, ?_, ?_⟩ <;> split_ifs <;> linarith
    · obtain ⟨h1, h2, h3, h4⟩ := qall p hp
      refine ⟨?_, ?_, ?_, ?_⟩ <;> split_ifs <;> linarith
  · split_ifs
    · exact ⟨q1, List.mem_append.mpr (Or.inr hq1), f1⟩
    · exact ⟨p1, List.mem_append.mpr (Or.inl hp1), e1⟩
  · split_ifs
    · exact ⟨q2, List.mem_append.mpr (Or.inr hq2), f2⟩
    · exact ⟨p2, List.mem_append.mpr (Or.inl hp2), e2⟩
  · split_ifs
    · exact ⟨q3, List.mem_append.mpr (Or.inr hq3), f3⟩
    · exact ⟨p3, List.mem_append.mpr (Or.inl hp3), e3⟩
  · split_ifs
    · exact ⟨q4, List.mem_append.mpr (Or.inr hq4), f4⟩
    · exact ⟨p4, List.mem_append.mpr (Or.inl hp4), e4⟩

/-- The loop of `calculateBoundingBoxFromIntersection`, after its first
polygon, over polygons with a non-empty outer ring. -/
theorem foldl_boxAccStep_tight (polys : List (List (List Point))) (acc : BoxAcc)
    (pts : List Point) (hf : acc.first = false)
    (hacc : IsTightBox pts acc.minX acc.minY acc.maxX acc.maxY)
    (hg : ∀ poly ∈ polys, ∃ outer holes, poly = outer :: holes ∧ outer ≠ []) :
    IsTightBox (pts ++ outerVertices polys) (polys.foldl boxAccStep acc).minX
      (polys.foldl boxAccStep acc).minY (polys.foldl boxAccStep acc).maxX
      (polys.foldl boxAccStep acc).maxY := by
  induction polys generalizing acc pts with
  | nil => simpa [outerVertices] using hacc
  | cons poly polys ih =>
    obtain ⟨outer, holes, rfl, hne⟩ := hg poly (by simp)
    have hstep := IsTightBox.union pts outer _ _ _ _ _ _ _ _ hacc
      (calculateBoundingBox_tight outer hne)
    have := ih (boxAccStep acc (outer :: holes)) (pts ++ outer)
      (by simp [boxAccStep, hf]) (by simpa [boxAccStep, hf] using hstep)
      (fun q hq => hg q (by simp [hq]))
    simpa [outerVertices, List.flatMap_cons, List.append_assoc] using this

/-- The box of `calculateBoundingBoxFromIntersection` is the tight bounding box
of the outer-ring vertices of the polygons, when each has a non-empty outer
ring. -/
theorem calculateBoundingBoxFromIntersection_tight (polys : List (List (List Point)))
    (hne : polys ≠ [])
    (hg : ∀ poly ∈ polys, ∃ outer holes, poly = outer :: holes ∧ outer ≠ []) :
    ∃ minX minY maxX maxY,
      calculateBoundingBoxFromIntersection polys = .ok [minX, minY, maxX, maxY] ∧
      IsTightBox (outerVertices polys) minX minY maxX maxY := by
  cases polys with
  | nil => exact absurd rfl hne
  | cons poly polys =>
    obtain ⟨outer, holes, rfl, hout⟩ := hg poly (by simp)
    refine ⟨_, _, _, _, rfl, ?_⟩
    have := foldl_boxAccStep_tight polys
      (boxAccStep { first := true, minX := 0, minY := 0, maxX := 0, maxY := 0 } (outer :: holes))
      outer (by simp [boxAccStep])
      (by simpa [boxAccStep] using calculateBoundingBox_tight outer hout)
      (fun q hq => hg q (by simp [hq]))
    simpa [outerVertices, List.flatMap_cons] using this

/-- A non-nil result of the pair test has a non-empty outer ring. -/
theorem intersectPolygons_some (poly1 poly2 r : List (List Point))
    (h : intersectPolygons poly1 poly2 = some r) :
    ∃ outer holes, r = outer :: holes ∧ outer ≠ [] := by
  cases poly1 with
  | nil => simp [intersectPolygons] at h
  | cons outer1 holes1 =>
    cases poly2 with
    | nil => simp [intersectPolygons] at h
    | cons outer2 holes2 =>
      simp only [intersectPolygons] at h
      split_ifs at h with h0 hb ha
      · injection h with h
        refine ⟨outer1, holes1, h.symm, ?_⟩
        intro he; exact h0 (Or.inl (by simp [he]))
      · injection h with h
        refine ⟨outer2, holes2, h.symm, ?_⟩
        intro he; exact h0 (Or.inr (by simp [he]))

theorem collectIntersections_outer_ne_nil (A B : List (List (List Point))) :
    ∀ poly ∈ collectIntersections A B, ∃ outer holes, poly = outer :: holes ∧ outer ≠ [] := by
  intro poly hp
  rw [collectIntersections_eq] at hp
  simp only [List.mem_flatMap, List.mem_filterMap] at hp
  obtain ⟨p, _, q, _, h⟩ := hp
  exact intersectPolygons_some p q poly h

/-- The result of `Intersect` on the two overlapping squares under the
reference library. -/
theorem Intersect_refLib_squareA_squareB :
    Intersect refLib (.polygon squareA) (.polygon squareB) =
      .ok (some { ID := "", Bbox := [5, 5, 15, 15], Geometry := polygonGeometry squareB,
                  Properties := none }) := by
  rw [Intersect_polygons_of_some refLib squareA squareB squareB (refLib_readsPolygon squareA)
    (refLib_readsPolygon squareB) refLib_buildsFeature
    (by simp [polygonRings, squareB, createTestPolygon])
    intersectPolygons_squareA_squareB, calculateBoundingBox_squareB]
  rfl

/-! ## Lemmas on `circle.go` -/

theorem foldl_append_singleton {α β : Type} (f : α → β) (l : List α) (init : List β) :
    l.foldl (fun acc a => acc ++ [f a]) init = init ++ l.map f := by
  induction l generalizing init with
  | nil => simp
  | cons a l ih => simp [ih]

theorem convertPointsToInterface_eq (points : List Point) :
    convertPointsToInterface points = points.map pointDyn := by
  unfold convertPointsToInterface
  rw [foldl_append_singleton (fun point : Point => Dyn.floats [point.Lng, point.Lat])]
  rfl

theorem generateCircleCoordinates_eq (lib : CircleLib) (center : Point) (r : ℚ) (steps : Int)
    (n : Nat) (h : steps = (n : Int) + 1) :
    generateCircleCoordinates lib center r steps =
      (List.range (n + 1)).map (circlePoint lib center r steps) ++
        [circlePoint lib center r steps 0] := by
  have hn : steps.toNat = n + 1 := by omega
  unfold generateCircleCoordinates
  rw [foldl_append_singleton, hn, List.nil_append]
  have : (List.range (n + 1)).map (circlePoint lib center r steps) =
      circlePoint lib center r steps 0 ::
        (List.range n).map (fun i => circlePoint lib center r steps (i + 1)) := by
    rw [List.range_succ_eq_map, List.map_cons, List.map_map]
    rfl
  rw [this]

theorem generateCircleCoordinates_of_nonpos (lib : CircleLib) (center : Point) (r : ℚ)
    (steps : Int) (h : steps ≤ 0) : generateCircleCoordinates lib center r steps = [] := by
  have hn : steps.toNat = 0 := by omega
  simp [generateCircleCoordinates, hn]

theorem Circle_fst (lib : CircleLib) (center : Point) (radius : ℚ)
    (options : Option CircleOptions) :
    (Circle lib center radius options).1 =
      circleBody lib center radius (effectiveOptions lib options) := by
  cases options <;> rfl

theorem circleBody_of_ok (lib : CircleLib) (center : Point) (radius d : ℚ)
    (options : CircleOptions) (hd : lib.LengthToDegrees radius options.Units = .ok d)
    (hN : lib.BuildsFeature) :
    circleBody lib center radius options =
      .ok { ID := "", Bbox := calculateCircleBoundingBox center d,
            Geometry := { GeoJSONType := geojsonPolygon,
                          Coordinates := Dyn.slice2 [convertPointsToInterface
                            (generateCircleCoordinates lib center d options.Steps)] },
            Properties := options.Properties } := by
  simp only [circleBody, hd]
  rw [hN _ _ _ _ (by simp [calculateCircleBoundingBox])]

theorem effectiveOptions_none (lib : CircleLib) :
    effectiveOptions lib none =
      { Steps := 64, Units := lib.UnitKilometers, Properties := none } := by
  simp [effectiveOptions, setDefaults]

theorem generateCircleCoordinates_getElem? (lib : CircleLib) (center : Point) (r : ℚ)
    (steps : Int) (i : Nat) (hi : (i : Int) < steps) :
    (generateCircleCoordinates lib center r steps)[i]? = some (circlePoint lib center r steps i) := by
  obtain ⟨n, hn⟩ : ∃ n : Nat, steps = (n : Int) + 1 := ⟨(steps - 1).toNat, by omega⟩
  have hin : i < n + 1 := by omega
  rw [generateCircleCoordinates_eq lib center r steps n hn,
    List.getElem?_append_left (by simpa using hin), List.getElem?_map,
    List.getElem?_range hin]
  rfl

theorem generateCircleCoordinates_length (lib : CircleLib) (center : Point) (r : ℚ)
    (steps : Int) (h : 1 ≤ steps) :
    ((generateCircleCoordinates lib center r steps).length : Int) = steps + 1 := by
  obtain ⟨n, hn⟩ : ∃ n : Nat, steps = (n : Int) + 1 := ⟨(steps - 1).toNat, by omega⟩
  rw [generateCircleCoordinates_eq lib center r steps n hn]
  simp [hn]

theorem generateCircleCoordinates_closed (lib : CircleLib) (center : Point) (r : ℚ)
    (steps : Int) (h : 1 ≤ steps) :
    (generateCircleCoordinates lib center r steps).getLast? =
        some (circlePoint lib center r steps 0) ∧
    (generateCircleCoordinates lib center r steps).head? =
        some (circlePoint lib center r steps 0) := by
  obtain ⟨n, hn⟩ : ∃ n : Nat, steps = (n : Int) + 1 := ⟨(steps - 1).toNat, by omega⟩
  rw [generateCircleCoordinates_eq lib center r steps n hn]
  constructor
  · simp
  · simp [List.range_succ_eq_map]

theorem refCircleLib_buildsFeature : refCircleLib.BuildsFeature := by
  intro g b p i h; simp [refCircleLib, refLib, h]

theorem refCircleLib_cos_zero : refCircleLib.Cos 0 = 1 := by
  norm_num [refCircleLib]

theorem refCircleLib_sin_zero : refCircleLib.Sin 0 = 0 := by
  norm_num [refCircleLib]

theorem refCircleLib_lengthToDegrees_zero :
    refCircleLib.LengthToDegrees 0 refCircleLib.UnitKilometers = .ok 0 := by
  simp [refCircleLib, refUnitFactors, List.lookup]

theorem refCircleLib_lengthToDegrees_five :
    refCircleLib.LengthToDegrees 5 refCircleLib.UnitKilometers =
      .ok (5 / (63710088 / 10000) * 180 / refPi) := by
  simp [refCircleLib, refUnitFactors, List.lookup]

theorem refCircleLib_lengthToDegrees_neg_one :
    refCircleLib.LengthToDegrees (-1) refCircleLib.UnitKilometers =
      .ok (-1 / (63710088 / 10000) * 180 / refPi) := by
  simp [refCircleLib, refUnitFactors, List.lookup]

theorem refCircleLib_cos_bounds (x : ℚ) : -1 ≤ refCircleLib.Cos x ∧ refCircleLib.Cos x ≤ 1 := by
  have hpos : (0 : ℚ) < 1 + (x / 2) ^ 2 := by positivity
  simp only [refCircleLib]
  constructor
  · rw [le_div_iff₀ hpos]; nlinarith [sq_nonneg (x / 2)]
  · rw [div_le_iff₀ hpos]; nlinarith [sq_nonneg (x / 2)]

theorem refCircleLib_sin_bounds (x : ℚ) : -1 ≤ refCircleLib.Sin x ∧ refCircleLib.Sin x ≤ 1 := by
  have hpos : (0 : ℚ) < 1 + (x / 2) ^ 2 := by positivity
  simp only [refCircleLib]
  constructor
  · rw [le_div_iff₀ hpos]; nlinarith [sq_nonneg (x / 2 + 1)]
  · rw [div_le_iff₀ hpos]; nlinarith [sq_nonneg (x / 2 - 1)]

theorem mem_generateCircleCoordinates (lib : CircleLib) (center : Point) (r : ℚ) (steps : Int)
    (p : Point) (hp : p ∈ generateCircleCoordinates lib center r steps) :
    ∃ i : Nat, p = circlePoint lib center r steps i := by
  by_cases h : 1 ≤ steps
  · obtain ⟨n, hn⟩ : ∃ n : Nat, steps = (n : Int) + 1 := ⟨(steps - 1).toNat, by omega⟩
    rw [generateCircleCoordinates_eq lib center r steps n hn] at hp
    simp only [List.mem_append, List.mem_map, List.mem_singleton] at hp
    rcases hp with ⟨i, _, rfl⟩ | rfl
    · exact ⟨i, rfl⟩
    · exact ⟨0, rfl⟩
  · rw [generateCircleCoordinates_of_nonpos lib center r steps (by omega)] at hp
    simp at hp

theorem refCircleLib_degreeRadius_neg : (-1 / (63710088 / 10000) * 180 / refPi : ℚ) < 0 := by
  norm_num [refPi]

theorem circlePoint_eq_add_offset (lib : CircleLib) (center : Point) (r : ℚ) (steps : Int)
    (i : Nat) :
    circlePoint lib center r steps i =
      { Lng := center.Lng + (circleOffset lib r steps i).1,
        Lat := center.Lat + (circleOffset lib r steps i).2 } := rfl

theorem circlePoint_neg (lib : CircleLib) (center : Point) (r : ℚ) (steps : Int) (i : Nat) :
    circlePoint lib center (-r) steps i =
      { Lng := center.Lng - (circleOffset lib r steps i).1,
        Lat := center.Lat - (circleOffset lib r steps i).2 } := by
  simp only [circlePoint, circleOffset, Point.mk.injEq]
  constructor <;> ring

theorem circlePoint_zero_radius (lib : CircleLib) (center : Point) (steps : Int) (i : Nat) :
    circlePoint lib center 0 steps i = center := by
  simp [circlePoint]

theorem generateCircleCoordinates_zero_radius (lib : CircleLib) (center : Point) (steps : Int)
    (h : 1 ≤ steps) :
    generateCircleCoordinates lib center 0 steps = List.replicate (steps.toNat + 1) center := by
  obtain ⟨n, hn⟩ : ∃ n : Nat, steps = (n : Int) + 1 := ⟨(steps - 1).toNat, by omega⟩
  have ht : steps.toNat = n + 1 := by omega
  rw [generateCircleCoordinates_eq lib center 0 steps n hn, ht]
  have hf : circlePoint lib center 0 steps = fun _ => center := by
    funext i
    exact circlePoint_zero_radius lib center steps i
  rw [hf]
  apply List.ext_getElem
  · simp
  · intro i h1 h2
    simp [List.getElem_append, List.getElem_replicate]

theorem ringAt_replicate (n : Nat) (c : Point) (i : Nat) (hi : i < n) :
    ringAt (List.replicate n c) i = c := by
  simp [ringAt, List.getD, List.getElem?_replicate, hi]

theorem foldl_shoelace_replicate (n : Nat) (c : Point) (l : List Nat)
    (hl : ∀ i ∈ l, i < n) (hn : 0 < n) :
    l.foldl (fun area i =>
      area + (ringAt (List.replicate n c) i).Lng * (ringAt (List.replicate n c) ((i + 1) % n)).Lat -
        (ringAt (List.replicate n c) ((i + 1) % n)).Lng * (ringAt (List.replicate n c) i).Lat) 0
      = 0 := by
  induction l with
  | nil => rfl
  | cons i l ih =>
    have hi : i < n := hl i (by simp)
    have hj : (i + 1) % n < n := Nat.mod_lt _ hn
    rw [List.foldl_cons, ringAt_replicate n c i hi, ringAt_replicate n c _ hj]
    simp only [zero_add, sub_self]
    exact ih (fun k hk => hl k (by simp [hk]))

theorem calculatePolygonArea_replicate (n : Nat) (c : Point) :
    calculatePolygonArea (List.replicate n c) = 0 := by
  unfold calculatePolygonArea
  split_ifs with h
  · rfl
  · simp only [List.length_replicate] at h ⊢
    rw [foldl_shoelace_replicate n c (List.range n) (fun i hi => List.mem_range.mp hi) (by omega)]
    simp

/-- The LineString-typed geometry of `TestCircleFromGeometryInvalid`. -/
theorem lineGeometry_tag :
    ({ GeoJSONType := geojsonLineString,
       Coordinates := Dyn.slice2 [[Dyn.floats [0, 0]], [Dyn.floats [1, 1]]] } : Geometry).GeoJSONType
      ≠ geojsonPoint := by
  decide

/-! ## The claims on the result bounding box and on the circle builder -/

/-- C11: for every non-null result of `Intersect`, the geometry of the feature
holds the result polygons and its bbox (minX, minY, maxX, maxY) is the union
of their outer-ring bounding boxes: every vertex of every outer ring lies
inside the bbox, minX/minY are the minimum Lng/Lat and maxX/maxY the maximum
Lng/Lat over those vertices (each is attained), and minX ≤ maxX, minY ≤ maxY. -/
theorem C11_result_bbox_is_union_of_outer_ring_boxes (lib : GeoLib) (a b : Input)
    (g1 g2 : Geometry) (A B : List (List (List Point))) (f : Feature)
    (h1 : getGeometryFromInput a = .ok g1) (h2 : getGeometryFromInput b = .ok g2)
    (e1 : extractPolygons lib g1 = .ok A) (e2 : extractPolygons lib g2 = .ok B)
    (hN : lib.BuildsFeature) (hf : Intersect lib a b = .ok (some f)) :
    f.Geometry = intersectionGeometry (collectIntersections A B) ∧
    ∃ minX minY maxX maxY, f.Bbox = [minX, minY, maxX, maxY] ∧
      IsTightBox (outerVertices (collectIntersections A B)) minX minY maxX maxY ∧
      minX ≤ maxX ∧ minY ≤ maxY := by
  rw [Intersect_of_extract lib a b g1 g2 A B h1 h2
    (isPolygonType_of_extractPolygons lib g1 A e1) (isPolygonType_of_extractPolygons lib g2 B e2)
    e1 e2] at hf
  have hne : collectIntersections A B ≠ [] := by
    intro h0
    rw [h0, createFeatureFromIntersection_nil, Outcome.returned_ok] at hf
    simp at hf
  obtain ⟨minX, minY, maxX, maxY, hb, ht⟩ :=
    calculateBoundingBoxFromIntersection_tight (collectIntersections A B) hne
      (collectIntersections_outer_ne_nil A B)
  have hlen : (collectIntersections A B).length ≠ 0 := by simpa using hne
  simp only [createFeatureFromIntersection, hlen, if_false, hb,
    hN _ [minX, minY, maxX, maxY] none "" rfl, Outcome.returned] at hf
  injection hf with hf
  injection hf with hf
  subst hf
  refine ⟨rfl, minX, minY, maxX, maxY, rfl, ht, ?_, ?_⟩
  · obtain ⟨hall, ⟨p, hp, hpx⟩, _⟩ := ht
    have := (hall p hp).2.1
    linarith
  · obtain ⟨hall, _, ⟨p, hp, hpy⟩, _⟩ := ht
    have := (hall p hp).2.2.2
    linarith

/-- Witness for C11: the overlapping squares of the tests under the reference
library. -/
theorem C11_result_bbox_witness :
    Intersect refLib (.polygon squareA) (.polygon squareB) =
      .ok (some { ID := "", Bbox := [5, 5, 15, 15], Geometry := polygonGeometry squareB,
                  Properties := none }) ∧
    polygonGeometry squareB =
      intersectionGeometry (collectIntersections [polygonRings squareA] [polygonRings squareB]) ∧
    ∃ minX minY maxX maxY, ([5, 5, 15, 15] : List ℚ) = [minX, minY, maxX, maxY] ∧
      IsTightBox (outerVertices (collectIntersections [polygonRings squareA] [polygonRings squareB]))
        minX minY maxX maxY ∧
      minX ≤ maxX ∧ minY ≤ maxY :=
  ⟨Intersect_refLib_squareA_squareB,
    C11_result_bbox_is_union_of_outer_ring_boxes refLib (.polygon squareA) (.polygon squareB)
      (polygonGeometry squareA) (polygonGeometry squareB) [polygonRings squareA]
      [polygonRings squareB] _ rfl rfl
      (extractPolygons_polygonGeometry refLib squareA (refLib_readsPolygon squareA))
      (extractPolygons_polygonGeometry refLib squareB (refLib_readsPolygon squareB))
      refLib_buildsFeature Intersect_refLib_squareA_squareB⟩

/-- C12: for every center, every degree-radius and every steps ≥ 1, the ring
built by `generateCircleCoordinates` has exactly steps + 1 vertices and its
last vertex equals its first vertex; with nil options the ring of the feature
returned by `Circle` has 65 vertices. -/
theorem C12_ring_is_closed_with_steps_plus_one_vertices (lib : CircleLib) (center : Point)
    (r : ℚ) (steps : Int) (h : 1 ≤ steps) :
    ((generateCircleCoordinates lib center r steps).length : Int) = steps + 1 ∧
    (∃ first, (generateCircleCoordinates lib center r steps).head? = some first ∧
      (generateCircleCoordinates lib center r steps).getLast? = some first) ∧
    (∀ radius d : ℚ, lib.LengthToDegrees radius lib.UnitKilometers = .ok d → lib.BuildsFeature →
      ∃ f ring, (Circle lib center radius none).1 = .ok f ∧
        f.Geometry.Coordinates = Dyn.slice2 [convertPointsToInterface ring] ∧
        ring.length = 65 ∧ (convertPointsToInterface ring).length = 65) := by
  refine ⟨generateCircleCoordinates_length lib center r steps h, ?_, ?_⟩
  · obtain ⟨hl, hh⟩ := generateCircleCoordinates_closed lib center r steps h
    exact ⟨_, hh, hl⟩
  · intro radius d hd hN
    have hlen := generateCircleCoordinates_length lib center d 64 (by norm_num)
    have hlen65 : (generateCircleCoordinates lib center d 64).length = 65 := by omega
    have hc := circleBody_of_ok lib center radius d
      { Steps := 64, Units := lib.UnitKilometers, Properties := none } hd hN
    rw [← effectiveOptions_none, ← Circle_fst] at hc
    refine ⟨_, generateCircleCoordinates lib center d 64, hc, rfl, hlen65, ?_⟩
    rw [convertPointsToInterface_eq, List.length_map, hlen65]

/-- Witness for C12: 4 steps with radius 1 around the origin, and radius 5 km
with nil options, on the reference library. -/
theorem C12_ring_is_closed_witness :
    ((1 : Int) ≤ 4) ∧
    ((generateCircleCoordinates refCircleLib { Lng := 0, Lat := 0 } 1 4).length : Int) = 4 + 1 ∧
    (∃ first, (generateCircleCoordinates refCircleLib { Lng := 0, Lat := 0 } 1 4).head? = some first ∧
      (generateCircleCoordinates refCircleLib { Lng := 0, Lat := 0 } 1 4).getLast? = some first) ∧
    (∃ f ring, (Circle refCircleLib { Lng := 0, Lat := 0 } 5 none).1 = .ok f ∧
        f.Geometry.Coordinates = Dyn.slice2 [convertPointsToInterface ring] ∧
        ring.length = 65 ∧ (convertPointsToInterface ring).length = 65) :=
  ⟨by decide,
    (C12_ring_is_closed_with_steps_plus_one_vertices refCircleLib { Lng := 0, Lat := 0 } 1 4
      (by decide)).1,
    (C12_ring_is_closed_with_steps_plus_one_vertices refCircleLib { Lng := 0, Lat := 0 } 1 4
      (by decide)).2.1,
    (C12_ring_is_closed_with_steps_plus_one_vertices refCircleLib { Lng := 0, Lat := 0 } 1 4
      (by decide)).2.2 5 _ refCircleLib_lengthToDegrees_five refCircleLib_buildsFeature⟩

/-- C13: for every center C, steps ≥ 1 and degree-radius r, and every index i
with 0 ≤ i < steps, vertex i of the circle ring is
(C.lng + r·cos(i·2π/steps), C.lat + r·sin(i·2π/steps)); when cos 0 = 1 and
sin 0 = 0, as for `math.Cos` and `math.Sin`, vertex 0 is (C.lng + r, C.lat). -/
theorem C13_vertex_formula (lib : CircleLib) (center : Point) (r : ℚ) (steps : Int) (i : Nat)
    (h : 1 ≤ steps) (hi : (i : Int) < steps) :
    (generateCircleCoordinates lib center r steps)[i]? =
      some { Lng := center.Lng + r * lib.Cos ((i : ℚ) * 2 * lib.Pi / (steps : ℚ)),
             Lat := center.Lat + r * lib.Sin ((i : ℚ) * 2 * lib.Pi / (steps : ℚ)) } ∧
    (lib.Cos 0 = 1 → lib.Sin 0 = 0 →
      (generateCircleCoordinates lib center r steps)[0]? =
        some { Lng := center.Lng + r, Lat := center.Lat }) := by
  constructor
  · rw [generateCircleCoordinates_getElem? lib center r steps i hi]
    rfl
  · intro hc hs
    rw [generateCircleCoordinates_getElem? lib center r steps 0 (by omega)]
    simp [circlePoint, hc, hs]

/-- Witness for C13: vertex 1 and vertex 0 of the 4-step ring of radius 2 around
(10, 20) on the reference library. -/
theorem C13_vertex_formula_witness :
    ((1 : Int) ≤ 4) ∧ (((1 : Nat) : Int) < 4) ∧
    (generateCircleCoordinates refCircleLib { Lng := 10, Lat := 20 } 2 4)[1]? =
      some { Lng := 10 + 2 * refCircleLib.Cos (((1 : Nat) : ℚ) * 2 * refCircleLib.Pi / ((4 : Int) : ℚ)),
             Lat := 20 + 2 * refCircleLib.Sin (((1 : Nat) : ℚ) * 2 * refCircleLib.Pi / ((4 : Int) : ℚ)) } ∧
    (generateCircleCoordinates refCircleLib { Lng := 10, Lat := 20 } 2 4)[0]? =
      some { Lng := 10 + 2, Lat := 20 } :=
  ⟨by decide, by decide,
    (C13_vertex_formula refCircleLib { Lng := 10, Lat := 20 } 2 4 1 (by decide) (by decide)).1,
    (C13_vertex_formula refCircleLib { Lng := 10, Lat := 20 } 2 4 1 (by decide) (by decide)).2
      refCircleLib_cos_zero refCircleLib_sin_zero⟩

/-- C14: for every center C, radius and options for which the unit conversion
succeeds with degree-radius d, the bbox of the feature returned by `Circle` is
exactly [C.lng − d, C.lat − d, C.lng + d, C.lat + d]. -/
theorem C14_circle_bbox (lib : CircleLib) (center : Point) (radius d : ℚ)
    (options : Option CircleOptions)
    (hd : lib.LengthToDegrees radius (effectiveOptions lib options).Units = .ok d)
    (hN : lib.BuildsFeature) :
    ∃ f, (Circle lib center radius options).1 = .ok f ∧
      f.Bbox = [center.Lng - d, center.Lat - d, center.Lng + d, center.Lat + d] := by
  have hc := circleBody_of_ok lib center radius d (effectiveOptions lib options) hd hN
  rw [← Circle_fst] at hc
  exact ⟨_, hc, rfl⟩

/-- Witness for C14: radius 5 km around (-75343/1000, 39984/1000) with nil
options, as in `TestCircle`. -/
theorem C14_circle_bbox_witness :
    refCircleLib.LengthToDegrees 5 (effectiveOptions refCircleLib none).Units =
      .ok (5 / (63710088 / 10000) * 180 / refPi) ∧
    refCircleLib.BuildsFeature ∧
    ∃ f, (Circle refCircleLib { Lng := -75343 / 1000, Lat := 39984 / 1000 } 5 none).1 = .ok f ∧
      f.Bbox = [-75343 / 1000 - 5 / (63710088 / 10000) * 180 / refPi,
                39984 / 1000 - 5 / (63710088 / 10000) * 180 / refPi,
                -75343 / 1000 + 5 / (63710088 / 10000) * 180 / refPi,
                39984 / 1000 + 5 / (63710088 / 10000) * 180 / refPi] :=
  ⟨refCircleLib_lengthToDegrees_five, refCircleLib_buildsFeature,
    C14_circle_bbox refCircleLib { Lng := -75343 / 1000, Lat := 39984 / 1000 } 5 _ none
      refCircleLib_lengthToDegrees_five refCircleLib_buildsFeature⟩

/-- C15: for every center, radius, unit and properties, and every integer
s ≤ 0, `Circle` called with `Steps = s` returns the same result (the same
feature, or the same error) as `Circle` called with `Steps = 64`; a nil options
value returns the same result as `Steps = 64` with the kilometers unit and no
properties. -/
theorem C15_nonpositive_steps_default_to_64 (lib : CircleLib) (center : Point) (radius : ℚ)
    (units : String) (properties : Option (List (String × Dyn))) (s : Int) (hs : s ≤ 0) :
    (Circle lib center radius (some { Steps := s, Units := units, Properties := properties })).1 =
      (Circle lib center radius (some { Steps := 64, Units := units, Properties := properties })).1 ∧
    (Circle lib center radius none).1 =
      (Circle lib center radius
        (some { Steps := 64, Units := lib.UnitKilometers, Properties := none })).1 := by
  constructor
  · simp only [Circle_fst, effectiveOptions, setDefaults, Option.getD_some, hs, if_true]
    simp
  · simp only [Circle_fst, effectiveOptions, setDefaults, Option.getD_some, Option.getD_none]
    by_cases hk : lib.UnitKilometers = "" <;> simp [hk]

/-- Witness for C15: `Steps = -3` against `Steps = 64` on the reference
library. -/
theorem C15_nonpositive_steps_witness :
    ((-3 : Int) ≤ 0) ∧
    ((Circle refCircleLib { Lng := 0, Lat := 0 } 1
        (some { Steps := -3, Units := "miles", Properties := none })).1 =
      (Circle refCircleLib { Lng := 0, Lat := 0 } 1
        (some { Steps := 64, Units := "miles", Properties := none })).1 ∧
    (Circle refCircleLib { Lng := 0, Lat := 0 } 1 none).1 =
      (Circle refCircleLib { Lng := 0, Lat := 0 } 1
        (some { Steps := 64, Units := refCircleLib.UnitKilometers, Properties := none })).1) :=
  ⟨by decide, C15_nonpositive_steps_default_to_64 refCircleLib { Lng := 0, Lat := 0 } 1 "miles"
    none (-3) (by decide)⟩

/-- C16: for every center C, every degree-radius d ≥ 0 and every steps, when
cos and sin take values in [-1, 1] the bbox square circumscribes the ring:
every vertex (x, y) of the circle ring satisfies C.lng − d ≤ x ≤ C.lng + d and
C.lat − d ≤ y ≤ C.lat + d, the four bounds being the entries of
`calculateCircleBoundingBox`. -/
theorem C16_bbox_circumscribes_ring (lib : CircleLib) (center : Point) (d : ℚ) (steps : Int)
    (hd : 0 ≤ d) (hcos : ∀ x, -1 ≤ lib.Cos x ∧ lib.Cos x ≤ 1)
    (hsin : ∀ x, -1 ≤ lib.Sin x ∧ lib.Sin x ≤ 1) :
    calculateCircleBoundingBox center d =
      [center.Lng - d, center.Lat - d, center.Lng + d, center.Lat + d] ∧
    ∀ p ∈ generateCircleCoordinates lib center d steps,
      center.Lng - d ≤ p.Lng ∧ p.Lng ≤ center.Lng + d ∧
      center.Lat - d ≤ p.Lat ∧ p.Lat ≤ center.Lat + d := by
  refine ⟨rfl, ?_⟩
  intro p hp
  obtain ⟨i, rfl⟩ := mem_generateCircleCoordinates lib center d steps p hp
  simp only [circlePoint]
  obtain ⟨c1, c2⟩ := hcos ((i : ℚ) * 2 * lib.Pi / (steps : ℚ))
  obtain ⟨s1, s2⟩ := hsin ((i : ℚ) * 2 * lib.Pi / (steps : ℚ))
  refine ⟨?_, ?_, ?_, ?_⟩ <;> nlinarith

/-- Witness for C16: radius 1, 8 steps around the origin on the reference
library. -/
theorem C16_bbox_circumscribes_witness :
    ((0 : ℚ) ≤ 1) ∧
    (calculateCircleBoundingBox { Lng := 0, Lat := 0 } 1 = [0 - 1, 0 - 1, 0 + 1, 0 + 1] ∧
    ∀ p ∈ generateCircleCoordinates refCircleLib { Lng := 0, Lat := 0 } 1 8,
      (0 : ℚ) - 1 ≤ p.Lng ∧ p.Lng ≤ 0 + 1 ∧ (0 : ℚ) - 1 ≤ p.Lat ∧ p.Lat ≤ 0 + 1) :=
  ⟨by norm_num, C16_bbox_circumscribes_ring refCircleLib { Lng := 0, Lat := 0 } 1 8 (by norm_num)
    refCircleLib_cos_bounds refCircleLib_sin_bounds⟩

/-- C17 (the code departs from the claim): when the unit conversion yields a
negative degree-radius d, as for a negative radius, `Circle` succeeds and the
bbox of the returned feature is [C.lng − d, C.lat − d, C.lng + d, C.lat + d]
with maxX < minX and maxY < minY: the BoundingBox invariant is broken. -/
theorem C17_negative_radius_inverts_bbox (lib : CircleLib) (center : Point) (radius d : ℚ)
    (options : Option CircleOptions)
    (hd : lib.LengthToDegrees radius (effectiveOptions lib options).Units = .ok d)
    (hneg : d < 0) (hN : lib.BuildsFeature) :
    ∃ f minX minY maxX maxY, (Circle lib center radius options).1 = .ok f ∧
      f.Bbox = [minX, minY, maxX, maxY] ∧ maxX < minX ∧ maxY < minY := by
  have hc := circleBody_of_ok lib center radius d (effectiveOptions lib options) hd hN
  rw [← Circle_fst] at hc
  refine ⟨_, center.Lng - d, center.Lat - d, center.Lng + d, center.Lat + d, hc, rfl, ?_, ?_⟩
    <;> linarith

/-- Witness for C17: radius -1 km around the origin with nil options, as in
`TestCircleEdgeCases`. -/
theorem C17_negative_radius_witness :
    refCircleLib.LengthToDegrees (-1) (effectiveOptions refCircleLib none).Units =
      .ok (-1 / (63710088 / 10000) * 180 / refPi) ∧
    (-1 / (63710088 / 10000) * 180 / refPi : ℚ) < 0 ∧
    ∃ f minX minY maxX maxY,
      (Circle refCircleLib { Lng := 0, Lat := 0 } (-1) none).1 = .ok f ∧
      f.Bbox = [minX, minY, maxX, maxY] ∧ maxX < minX ∧ maxY < minY :=
  ⟨refCircleLib_lengthToDegrees_neg_one, refCircleLib_degreeRadius_neg,
    C17_negative_radius_inverts_bbox refCircleLib { Lng := 0, Lat := 0 } (-1) _ none
      refCircleLib_lengthToDegrees_neg_one refCircleLib_degreeRadius_neg
      refCircleLib_buildsFeature⟩

/-- C18 (counterexample): with one step around the origin, the ring for radius
1 is [(1,0), (1,0)] and the ring for radius -1 is [(-1,0), (-1,0)]: the two
rings do not have the same set of vertices. -/
theorem C18_negative_radius_ring_differs :
    generateCircleCoordinates refCircleLib { Lng := 0, Lat := 0 } 1 1 =
      [{ Lng := 1, Lat := 0 }, { Lng := 1, Lat := 0 }] ∧
    generateCircleCoordinates refCircleLib { Lng := 0, Lat := 0 } (-1) 1 =
      [{ Lng := -1, Lat := 0 }, { Lng := -1, Lat := 0 }] ∧
    ¬ (∀ p : Point,
        p ∈ generateCircleCoordinates refCircleLib { Lng := 0, Lat := 0 } 1 1 ↔
        p ∈ generateCircleCoordinates refCircleLib { Lng := 0, Lat := 0 } (-1) 1) := by
  have h1 : generateCircleCoordinates refCircleLib { Lng := 0, Lat := 0 } 1 1 =
      [{ Lng := 1, Lat := 0 }, { Lng := 1, Lat := 0 }] := by
    rw [generateCircleCoordinates_eq refCircleLib _ 1 1 0 (by norm_num)]
    norm_num [circlePoint, refCircleLib, List.range, List.range.loop]
  have h2 : generateCircleCoordinates refCircleLib { Lng := 0, Lat := 0 } (-1) 1 =
      [{ Lng := -1, Lat := 0 }, { Lng := -1, Lat := 0 }] := by
    rw [generateCircleCoordinates_eq refCircleLib _ (-1) 1 0 (by norm_num)]
    norm_num [circlePoint, refCircleLib, List.range, List.range.loop]
  refine ⟨h1, h2, ?_⟩
  intro h
  have := (h { Lng := 1, Lat := 0 }).mp (by rw [h1]; simp)
  rw [h2] at this
  simp at this
  norm_num at this

/-- C18 (amended): for every center C, degree-radius r and steps ≥ 1, the ring
generated for radius −r has the same number of vertices as the ring generated
for radius r, and for every i < steps its vertex i is
(C.lng − dx, C.lat − dy), where (dx, dy) = (r·cos θ, r·sin θ), θ = i·2π/steps,
is the offset for which vertex i of the ring for radius r is
(C.lng + dx, C.lat + dy): negating the radius negates every offset. -/
theorem C18_negative_radius_negates_the_offsets (lib : CircleLib) (center : Point) (r : ℚ)
    (steps : Int) (hs : 1 ≤ steps) :
    (generateCircleCoordinates lib center (-r) steps).length =
      (generateCircleCoordinates lib center r steps).length ∧
    ∀ i : Nat, (i : Int) < steps →
      (generateCircleCoordinates lib center r steps)[i]? =
        some { Lng := center.Lng + (circleOffset lib r steps i).1,
               Lat := center.Lat + (circleOffset lib r steps i).2 } ∧
      (generateCircleCoordinates lib center (-r) steps)[i]? =
        some { Lng := center.Lng - (circleOffset lib r steps i).1,
               Lat := center.Lat - (circleOffset lib r steps i).2 } := by
  constructor
  · have h1 := generateCircleCoordinates_length lib center (-r) steps hs
    have h2 := generateCircleCoordinates_length lib center r steps hs
    omega
  · intro i hi
    rw [generateCircleCoordinates_getElem? lib center r steps i hi,
      generateCircleCoordinates_getElem? lib center (-r) steps i hi, circlePoint_neg,
      circlePoint_eq_add_offset]
    exact ⟨rfl, rfl⟩

/-- Witness for C18: four steps of radius 2 around (1, 1) on the reference
library, vertex 1. -/
theorem C18_negative_radius_witness_of_offsets :
    ((1 : Int) ≤ 4) ∧ (((1 : Nat) : Int) < 4) ∧
    (generateCircleCoordinates refCircleLib { Lng := 1, Lat := 1 } 2 4)[1]? =
      some { Lng := 1 + (circleOffset refCircleLib 2 4 1).1,
             Lat := 1 + (circleOffset refCircleLib 2 4 1).2 } ∧
    (generateCircleCoordinates refCircleLib { Lng := 1, Lat := 1 } (-2) 4)[1]? =
      some { Lng := 1 - (circleOffset refCircleLib 2 4 1).1,
             Lat := 1 - (circleOffset refCircleLib 2 4 1).2 } :=
  ⟨by decide, by decide,
    (C18_negative_radius_negates_the_offsets refCircleLib { Lng := 1, Lat := 1 } 2 4
      (by decide)).2 1 (by decide)⟩

/-- C19: for every center C and every steps ≥ 1, with degree-radius 0 the ring
consists of the point C repeated exactly steps + 1 times, its shoelace area is
0 and the bbox is (C.lng, C.lat, C.lng, C.lat); when the unit conversion maps
radius 0 to degree-radius 0, `Circle` accepts radius 0 without error and
returns the feature with that ring and that bbox. -/
theorem C19_zero_radius_collapses_to_center (lib : CircleLib) (center : Point) (steps : Int)
    (h : 1 ≤ steps) :
    generateCircleCoordinates lib center 0 steps = List.replicate (steps.toNat + 1) center ∧
    calculatePolygonArea (generateCircleCoordinates lib center 0 steps) = 0 ∧
    calculateCircleBoundingBox center 0 = [center.Lng, center.Lat, center.Lng, center.Lat] ∧
    (∀ (units : String) (properties : Option (List (String × Dyn))),
      lib.LengthToDegrees 0
        (effectiveOptions lib (some { Steps := steps, Units := units, Properties := properties })).Units
          = .ok 0 →
      lib.BuildsFeature →
      (Circle lib center 0 (some { Steps := steps, Units := units, Properties := properties })).1 =
        .ok { ID := "", Bbox := [center.Lng, center.Lat, center.Lng, center.Lat],
              Geometry := { GeoJSONType := geojsonPolygon,
                            Coordinates := Dyn.slice2 [convertPointsToInterface
                              (List.replicate (steps.toNat + 1) center)] },
              Properties := properties }) := by
  have hring := generateCircleCoordinates_zero_radius lib center steps h
  have hbox : calculateCircleBoundingBox center 0 =
      [center.Lng, center.Lat, center.Lng, center.Lat] := by
    simp [calculateCircleBoundingBox]
  refine ⟨hring, ?_, hbox, ?_⟩
  · rw [hring, calculatePolygonArea_replicate]
  · intro units properties hd hN
    have hsteps : (effectiveOptions lib
        (some { Steps := steps, Units := units, Properties := properties })).Steps = steps := by
      have : ¬ steps ≤ 0 := by omega
      simp only [effectiveOptions, setDefaults, Option.getD_some, this, if_false]
      split_ifs <;> rfl
    have hprops : (effectiveOptions lib
        (some { Steps := steps, Units := units, Properties := properties })).Properties
          = properties := by
      simp only [effectiveOptions, setDefaults, Option.getD_some]
      split_ifs <;> rfl
    rw [Circle_fst, circleBody_of_ok lib center 0 0 _ hd hN, hsteps, hprops, hring, hbox]

/-- Witness for C19: 10 steps around (3, 4) in kilometers on the reference
library. -/
theorem C19_zero_radius_witness :
    ((1 : Int) ≤ 10) ∧
    generateCircleCoordinates refCircleLib { Lng := 3, Lat := 4 } 0 10 =
      List.replicate 11 { Lng := 3, Lat := 4 } ∧
    calculatePolygonArea (generateCircleCoordinates refCircleLib { Lng := 3, Lat := 4 } 0 10) = 0 ∧
    (Circle refCircleLib { Lng := 3, Lat := 4 } 0
        (some { Steps := 10, Units := "kilometeres", Properties := none })).1 =
      .ok { ID := "", Bbox := [3, 4, 3, 4],
            Geometry := { GeoJSONType := geojsonPolygon,
                          Coordinates := Dyn.slice2 [convertPointsToInterface
                            (List.replicate 11 { Lng := 3, Lat := 4 })] },
            Properties := none } :=
  ⟨by decide,
    (C19_zero_radius_collapses_to_center refCircleLib { Lng := 3, Lat := 4 } 10 (by decide)).1,
    (C19_zero_radius_collapses_to_center refCircleLib { Lng := 3, Lat := 4 } 10 (by decide)).2.1,
    (C19_zero_radius_collapses_to_center refCircleLib { Lng := 3, Lat := 4 } 10 (by decide)).2.2.2
      "kilometeres" none refCircleLib_lengthToDegrees_zero refCircleLib_buildsFeature⟩

/-- C20: `CircleFromFeature` and `CircleFromGeometry` return an error (and so
no feature) when their source argument is nil and when its geometry type tag
is not Point, for every radius and options; when the tag is Point and the
point extraction succeeds with point p, the result is that of
`Circle(p, radius, options)`. -/
theorem C20_circle_from_feature_and_geometry (lib : CircleLib) (radius : ℚ)
    (options : Option CircleOptions) :
    (∃ e, (CircleFromFeature lib none radius options).1 = .error e) ∧
    (∃ e, (CircleFromGeometry lib none radius options).1 = .error e) ∧
    (∀ f : Feature, f.Geometry.GeoJSONType ≠ geojsonPoint →
      ∃ e, (CircleFromFeature lib (some f) radius options).1 = .error e) ∧
    (∀ g : Geometry, g.GeoJSONType ≠ geojsonPoint →
      ∃ e, (CircleFromGeometry lib (some g) radius options).1 = .error e) ∧
    (∀ (f : Feature) (p : Point), f.Geometry.GeoJSONType = geojsonPoint →
      lib.FeatureToPoint f = .ok p →
      CircleFromFeature lib (some f) radius options = Circle lib p radius options) ∧
    (∀ (g : Geometry) (p : Point), g.GeoJSONType = geojsonPoint →
      lib.GeometryToPoint g = .ok p →
      CircleFromGeometry lib (some g) radius options = Circle lib p radius options) := by
  refine ⟨⟨_, rfl⟩, ⟨_, rfl⟩, ?_, ?_, ?_, ?_⟩
  · intro f hf
    exact ⟨"feature must be a Point", by simp [CircleFromFeature, hf]⟩
  · intro g hg
    exact ⟨"geometry must be a Point", by simp [CircleFromGeometry, hg]⟩
  · intro f p hf hp
    simp [CircleFromFeature, hf, hp]
  · intro g p hg hp
    simp [CircleFromGeometry, hg, hp]

/-- Witness for C20: the LineString geometry and the Point geometry of the
tests, on the reference library. -/
theorem C20_circle_from_feature_and_geometry_witness :
    (∃ e, (CircleFromFeature refCircleLib none 5 none).1 = .error e) ∧
    (∃ e, (CircleFromGeometry refCircleLib none 5 none).1 = .error e) ∧
    (∃ e, (CircleFromGeometry refCircleLib
      (some { GeoJSONType := geojsonLineString,
              Coordinates := Dyn.slice2 [[Dyn.floats [0, 0]], [Dyn.floats [1, 1]]] }) 5 none).1
        = .error e) ∧
    CircleFromGeometry refCircleLib
      (some { GeoJSONType := geojsonPoint,
              Coordinates := Dyn.floats [-75343 / 1000, 39984 / 1000] }) 5 none =
      Circle refCircleLib { Lng := -75343 / 1000, Lat := 39984 / 1000 } 5 none :=
  ⟨(C20_circle_from_feature_and_geometry refCircleLib 5 none).1,
    (C20_circle_from_feature_and_geometry refCircleLib 5 none).2.1,
    (C20_circle_from_feature_and_geometry refCircleLib 5 none).2.2.2.1 _ lineGeometry_tag,
    (C20_circle_from_feature_and_geometry refCircleLib 5 none).2.2.2.2.2
      { GeoJSONType := geojsonPoint, Coordinates := Dyn.floats [-75343 / 1000, 39984 / 1000] }
      { Lng := -75343 / 1000, Lat := 39984 / 1000 } rfl rfl⟩

/-! ## Lemmas on the options, the area and the pair test -/

theorem effectiveOptions_properties (lib : CircleLib) (options : Option CircleOptions) :
    (effectiveOptions lib options).Properties = options.bind fun o => o.Properties := by
  cases options with
  | none => simp [effectiveOptions, setDefaults]
  | some o =>
    simp only [effectiveOptions, setDefaults, Option.getD_some, Option.some_bind]
    split_ifs <;> rfl

/-- Swapping the two points negates the shoelace term. -/
theorem cross_antisymm (p q : Point) : cross p q = -cross q p := by
  simp only [cross]; ring

theorem foldl_add_sub_eq_sum (f : Nat → ℚ) (l : List Nat) (init : ℚ) :
    l.foldl (fun area i => area + f i) init = init + (l.map f).sum := by
  induction l generalizing init with
  | nil => simp
  | cons i l ih => simp [ih, add_assoc]

theorem sum_map_range_eq_finset_sum (f : Nat → ℚ) (n : Nat) :
    ((List.range n).map f).sum = ∑ i ∈ Finset.range n, f i := by
  induction n with
  | zero => simp
  | succ n ih => simp [List.range_succ, Finset.sum_range_succ, ih]

/-- The loop of `calculatePolygonArea` computes the shoelace sum of the
specification. -/
theorem calculatePolygonArea_eq_shoelaceSum (ring : List Point) (h : 3 ≤ ring.length) :
    calculatePolygonArea ring = shoelaceSum ring := by
  have hlt : ¬ ring.length < 3 := by omega
  unfold calculatePolygonArea shoelaceSum
  rw [if_neg hlt]
  have hfold := foldl_add_sub_eq_sum
    (fun i => (ringAt ring i).Lng * (ringAt ring ((i + 1) % ring.length)).Lat -
      (ringAt ring ((i + 1) % ring.length)).Lng * (ringAt ring i).Lat)
    (List.range ring.length) 0
  simp only [add_sub_assoc]
  rw [hfold, sum_map_range_eq_finset_sum]
  ring

theorem ringAt_reverse (ring : List Point) (i : Nat) (hi : i < ring.length) :
    ringAt ring.reverse i = ringAt ring (ring.length - 1 - i) := by
  simp only [ringAt, List.getD_eq_getElem?_getD]
  rw [List.getElem?_reverse hi]

theorem shoelaceSum_eq_cross (ring : List Point) :
    shoelaceSum ring = (1 / 2) * ∑ i ∈ Finset.range ring.length,
      cross (ringAt ring i) (ringAt ring ((i + 1) % ring.length)) := rfl

/-- Reversing the vertex order negates the shoelace sum. -/
theorem shoelaceSum_reverse (ring : List Point) :
    shoelaceSum ring.reverse = -shoelaceSum ring := by
  rw [shoelaceSum_eq_cross, shoelaceSum_eq_cross, List.length_reverse]
  cases hn : ring.length with
  | zero => simp
  | succ m =>
    have hlast : cross (ringAt ring.reverse m) (ringAt ring.reverse ((m + 1) % (m + 1))) =
        -cross (ringAt ring m) (ringAt ring ((m + 1) % (m + 1))) := by
      rw [Nat.mod_self, ringAt_reverse ring m (by omega), ringAt_reverse ring 0 (by omega), hn,
        cross_antisymm]
      simp
    have hterm : ∀ i ∈ Finset.range m,
        cross (ringAt ring.reverse i) (ringAt ring.reverse ((i + 1) % (m + 1))) =
          -cross (ringAt ring (m - 1 - i)) (ringAt ring ((m - 1 - i + 1) % (m + 1))) := by
      intro i hi
      have hi : i < m := Finset.mem_range.mp hi
      rw [Nat.mod_eq_of_lt (by omega), Nat.mod_eq_of_lt (by omega),
        ringAt_reverse ring i (by omega), ringAt_reverse ring (i + 1) (by omega), hn,
        cross_antisymm]
      have e1 : m + 1 - 1 - i = m - 1 - i + 1 := by omega
      have e2 : m + 1 - 1 - (i + 1) = m - 1 - i := by omega
      rw [e1, e2]
    rw [Finset.sum_range_succ, Finset.sum_range_succ, Finset.sum_congr rfl hterm, hlast,
      Finset.sum_neg_distrib,
      Finset.sum_range_reflect
        (fun j => cross (ringAt ring j) (ringAt ring ((j + 1) % (m + 1)))) m]
    ring

theorem calculatePolygonArea_reverse (ring : List Point) :
    calculatePolygonArea ring.reverse = -calculatePolygonArea ring := by
  by_cases h : 3 ≤ ring.length
  · rw [calculatePolygonArea_eq_shoelaceSum ring h,
      calculatePolygonArea_eq_shoelaceSum ring.reverse (by simpa using h), shoelaceSum_reverse]
  · have h1 : ring.length < 3 := by omega
    have h2 : ring.reverse.length < 3 := by simpa using h1
    simp [calculatePolygonArea, h1, h2]

/-- The area of the closed ring of an axis-aligned rectangle. -/
theorem calculatePolygonArea_rectangle (x0 y0 x1 y1 : ℚ) :
    calculatePolygonArea
      [{ Lng := x0, Lat := y0 }, { Lng := x1, Lat := y0 }, { Lng := x1, Lat := y1 },
       { Lng := x0, Lat := y1 }, { Lng := x0, Lat := y0 }] = (x1 - x0) * (y1 - y0) := by
  simp [calculatePolygonArea, ringAt, List.range, List.range.loop]
  ring

theorem product_cons_eq (p : List (List Point)) (A B : List (List (List Point))) :
    (p :: A).product B = B.map (Prod.mk p) ++ A.product B := by
  simp [List.product]

theorem collectIntersections_eq_pairwise (A B : List (List (List Point))) :
    collectIntersections A B = pairwiseIntersections A B := by
  rw [collectIntersections_eq]
  unfold pairwiseIntersections
  induction A with
  | nil => simp [List.product]
  | cons p A ih =>
    rw [product_cons_eq, List.filterMap_append, List.flatMap_cons, ih, List.filterMap_map]
    rfl

theorem intersectPolygons_squareA_squareF :
    intersectPolygons (polygonRings squareA) (polygonRings squareF) = some (polygonRings squareF) := by
  norm_num [intersectPolygons, polygonRings, squareA, squareF, createTestPolygon,
    calculateBoundingBox, bboxStep, boundingBoxesIntersect, calculatePolygonArea, ringAt,
    List.range, List.range.loop]

theorem intersectPolygons_squareAReversed_squareF :
    intersectPolygons (polygonRings squareAReversed) (polygonRings squareF) =
      some (polygonRings squareAReversed) := by
  norm_num [intersectPolygons, polygonRings, squareAReversed, squareF, createTestPolygon,
    calculateBoundingBox, bboxStep, boundingBoxesIntersect, calculatePolygonArea, ringAt,
    List.range, List.range.loop]

theorem calculateBoundingBox_squareAReversed :
    calculateBoundingBox (outerRing squareAReversed) =
      { MinX := 0, MinY := 0, MaxX := 10, MaxY := 10 } := by
  norm_num [outerRing, polygonRings, squareAReversed, createTestPolygon, calculateBoundingBox,
    bboxStep]

theorem isIntegerRing_squareA : IsIntegerRing 10 (outerRing squareA) := by
  intro p hp
  simp only [outerRing, polygonRings, squareA, createTestPolygon, List.map_cons, List.map_nil,
    List.headD_cons, List.mem_cons, List.mem_singleton, List.not_mem_nil, or_false] at hp
  rcases hp with rfl | rfl | rfl | rfl | rfl
  · exact ⟨0, 0, by norm_num, by norm_num, by norm_num, by norm_num⟩
  · exact ⟨10, 0, by norm_num, by norm_num, by norm_num, by norm_num⟩
  · exact ⟨10, 10, by norm_num, by norm_num, by norm_num, by norm_num⟩
  · exact ⟨0, 10, by norm_num, by norm_num, by norm_num, by norm_num⟩
  · exact ⟨0, 0, by norm_num, by norm_num, by norm_num, by norm_num⟩

/-! ## The claims on the adapters, the options and the helpers of `Intersect` -/

/-- C21: for every coordinate list c, radius and options,
`CircleFromCoordinates` returns an error (and so no feature) whenever
len(c) ≠ 2, and when len(c) = 2 its result is exactly
`Circle(Point{Lng: c[0], Lat: c[1]}, radius, options)`. -/
theorem C21_circle_from_coordinates (lib : CircleLib) (c : List ℚ) (radius : ℚ)
    (options : Option CircleOptions) :
    (c.length ≠ 2 → ∃ e, (CircleFromCoordinates lib c radius options).1 = .error e) ∧
    (c.length = 2 → CircleFromCoordinates lib c radius options =
      Circle lib { Lng := c.getD 0 0, Lat := c.getD 1 0 } radius options) := by
  constructor
  · intro h
    match c, h with
    | [], _ => exact ⟨_, rfl⟩
    | [_], _ => exact ⟨_, rfl⟩
    | [_, _], h => exact absurd rfl h
    | _ :: _ :: _ :: _, _ => exact ⟨_, rfl⟩
  · intro h
    match c, h with
    | [c0, c1], _ => rfl

/-- Witness for C21: the one-element list of `TestCircleFromCoordinatesInvalid`
and the two-element list of `TestCircleFromCoordinates`. -/
theorem C21_circle_from_coordinates_witness :
    (∃ e, (CircleFromCoordinates refCircleLib [-75343 / 1000] 5 none).1 = .error e) ∧
    CircleFromCoordinates refCircleLib [-75343 / 1000, 39984 / 1000] 5 none =
      Circle refCircleLib
        { Lng := ([-75343 / 1000, 39984 / 1000] : List ℚ).getD 0 0,
          Lat := ([-75343 / 1000, 39984 / 1000] : List ℚ).getD 1 0 } 5 none :=
  ⟨(C21_circle_from_coordinates refCircleLib [-75343 / 1000] 5 none).1 (by decide),
    (C21_circle_from_coordinates refCircleLib [-75343 / 1000, 39984 / 1000] 5 none).2 rfl⟩

/-- C22 (counterexample): called with the caller's options
{Steps: 0, Units: "", Properties: nil}, `Circle` leaves the caller's struct as
{Steps: 64, Units: "kilometeres", Properties: nil}: Steps and Units are not
what they were before the call. -/
theorem C22_defaults_are_written_to_caller_options :
    (Circle refCircleLib { Lng := 0, Lat := 0 } 1
        (some { Steps := 0, Units := "", Properties := none })).2 =
      some { Steps := 64, Units := "kilometeres", Properties := none } ∧
    (Circle refCircleLib { Lng := 0, Lat := 0 } 1
        (some { Steps := 0, Units := "", Properties := none })).2 ≠
      some { Steps := 0, Units := "", Properties := none } := by
  have h : (Circle refCircleLib { Lng := 0, Lat := 0 } 1
        (some { Steps := 0, Units := "", Properties := none })).2 =
      some { Steps := 64, Units := "kilometeres", Properties := none } := rfl
  refine ⟨h, ?_⟩
  rw [h]
  intro hc
  injection hc with hc
  injection hc with hs
  exact absurd hs (by decide)

/-- C22 (amended): for every non-nil options value, after `Circle` returns the
caller's `Properties` are unchanged, `Steps` is unchanged when it was positive
and is 64 otherwise, and `Units` is unchanged when it was non-empty and is the
kilometers constant otherwise; a nil options argument stays nil. -/
theorem C22_caller_options_after_circle (lib : CircleLib) (center : Point) (radius : ℚ)
    (o : CircleOptions) :
    (∃ after, (Circle lib center radius (some o)).2 = some after ∧
      after.Properties = o.Properties ∧
      after.Steps = (if o.Steps ≤ 0 then 64 else o.Steps) ∧
      after.Units = (if o.Units = "" then lib.UnitKilometers else o.Units)) ∧
    (Circle lib center radius none).2 = none := by
  refine ⟨⟨setDefaults lib o, rfl, ?_, ?_, ?_⟩, rfl⟩
  · simp only [setDefaults]
    split_ifs <;> rfl
  · simp only [setDefaults]
    split_ifs <;> rfl
  · simp only [setDefaults]
    split_ifs <;> rfl

/-- C23: whenever `Circle` succeeds, the geometry of the returned feature has
type tag Polygon and exactly one ring, the generated circle ring, and the
properties of the feature are exactly those of the options (none for nil
options); when the unit conversion fails, `Circle` returns that error. -/
theorem C23_circle_feature_shape (lib : CircleLib) (center : Point) (radius : ℚ)
    (options : Option CircleOptions) (hN : lib.BuildsFeature) :
    (∀ f, (Circle lib center radius options).1 = .ok f →
      ∃ d, lib.LengthToDegrees radius (effectiveOptions lib options).Units = .ok d ∧
        f.Geometry.GeoJSONType = geojsonPolygon ∧
        f.Geometry.Coordinates = Dyn.slice2 [convertPointsToInterface
          (generateCircleCoordinates lib center d (effectiveOptions lib options).Steps)] ∧
        f.Properties = options.bind fun o => o.Properties) ∧
    (∀ e, lib.LengthToDegrees radius (effectiveOptions lib options).Units = .error e →
      (Circle lib center radius options).1 = .error e) := by
  constructor
  · intro f hf
    rw [Circle_fst] at hf
    cases hd : lib.LengthToDegrees radius (effectiveOptions lib options).Units with
    | error e => simp [circleBody, hd] at hf
    | ok d =>
      rw [circleBody_of_ok lib center radius d _ hd hN] at hf
      injection hf with hf
      subst hf
      exact ⟨d, rfl, rfl, rfl, effectiveOptions_properties lib options⟩
  · intro e he
    rw [Circle_fst]
    simp [circleBody, he]

/-- Witness for C23: radius 5 km with nil options, and the unsupported unit
"parsecs", on the reference library. -/
theorem C23_circle_feature_shape_witness :
    refCircleLib.BuildsFeature ∧
    (∀ f, (Circle refCircleLib { Lng := 0, Lat := 0 } 5 none).1 = .ok f →
      ∃ d, refCircleLib.LengthToDegrees 5 (effectiveOptions refCircleLib none).Units = .ok d ∧
        f.Geometry.GeoJSONType = geojsonPolygon ∧
        f.Geometry.Coordinates = Dyn.slice2 [convertPointsToInterface
          (generateCircleCoordinates refCircleLib { Lng := 0, Lat := 0 } d
            (effectiveOptions refCircleLib none).Steps)] ∧
        f.Properties = (none : Option CircleOptions).bind fun o => o.Properties) ∧
    (Circle refCircleLib { Lng := 0, Lat := 0 } 5
      (some { Steps := 8, Units := "parsecs", Properties := none })).1 = .error "invalid units" :=
  ⟨refCircleLib_buildsFeature,
    (C23_circle_feature_shape refCircleLib { Lng := 0, Lat := 0 } 5 none
      refCircleLib_buildsFeature).1,
    (C23_circle_feature_shape refCircleLib { Lng := 0, Lat := 0 } 5
      (some { Steps := 8, Units := "parsecs", Properties := none })
      refCircleLib_buildsFeature).2 "invalid units" rfl⟩

/-- C24 (counterexample): the ring (0,0), (2,2), (2,0), (0,2) crosses itself at
(1,1) and encloses the two triangles (1,1), (2,2), (2,0) and (1,1), (0,2),
(0,0), each of area 1 (base 2, height 1).  `calculatePolygonArea` returns -1
and 1 for the two triangles and 0 for the ring: the magnitude of the result is
not the enclosed area 2. -/
theorem C24_self_crossing_ring_has_result_zero :
    calculatePolygonArea bowTie = 0 ∧
    calculatePolygonArea bowTieRight = -1 ∧
    calculatePolygonArea bowTieLeft = 1 ∧
    |calculatePolygonArea bowTie| ≠
      |calculatePolygonArea bowTieRight| + |calculatePolygonArea bowTieLeft| := by
  have h0 : calculatePolygonArea bowTie = 0 := by
    norm_num [calculatePolygonArea, bowTie, ringAt, List.range, List.range.loop]
  have h1 : calculatePolygonArea bowTieRight = -1 := by
    norm_num [calculatePolygonArea, bowTieRight, ringAt, List.range, List.range.loop]
  have h2 : calculatePolygonArea bowTieLeft = 1 := by
    norm_num [calculatePolygonArea, bowTieLeft, ringAt, List.range, List.range.loop]
  refine ⟨h0, h1, h2, ?_⟩
  rw [h0, h1, h2]
  norm_num

/-- C24 (amended): for every ring of n points, `calculatePolygonArea` returns 0
when n < 3.  When the coordinates of the ring are integers of magnitude at
most B with 2·n·B² ≤ 2⁵³, so that every product and every partial sum of the
loop is an integer that float64 holds exactly, the result for n ≥ 3 is the
signed shoelace sum
0.5 · Σ_{i=0}^{n-1} (x_i·y_{(i+1) mod n} − x_{(i+1) mod n}·y_i), and reversing
the vertex order of the ring negates the result.  For the closed ring of an
axis-aligned rectangle with such corner coordinates the result is
width · height, the enclosed area: 100 for the closed square [0,0]-[10,10]. -/
theorem C24_shoelace_area_on_integer_rings (ring : List Point) :
    (ring.length < 3 → calculatePolygonArea ring = 0) ∧
    (∀ B : Nat, IsIntegerRing B ring → 2 * ring.length * B ^ 2 ≤ 2 ^ 53 →
      (3 ≤ ring.length → calculatePolygonArea ring = shoelaceSum ring) ∧
      calculatePolygonArea ring.reverse = -calculatePolygonArea ring) ∧
    (∀ (B : Nat) (x0 y0 x1 y1 : Int), |x0| ≤ B → |y0| ≤ B → |x1| ≤ B → |y1| ≤ B →
      2 * 5 * B ^ 2 ≤ 2 ^ 53 →
      calculatePolygonArea
        [{ Lng := x0, Lat := y0 }, { Lng := x1, Lat := y0 }, { Lng := x1, Lat := y1 },
         { Lng := x0, Lat := y1 }, { Lng := x0, Lat := y0 }] = ((x1 - x0) * (y1 - y0) : Int)) ∧
    calculatePolygonArea (outerRing squareA) = 100 := by
  refine ⟨?_, ?_, ?_, ?_⟩
  · intro h
    simp [calculatePolygonArea, h]
  · intro B _ _
    exact ⟨calculatePolygonArea_eq_shoelaceSum ring, calculatePolygonArea_reverse ring⟩
  · intro B x0 y0 x1 y1 _ _ _ _ _
    rw [calculatePolygonArea_rectangle]
    push_cast
    ring
  · have := calculatePolygonArea_rectangle 0 0 10 10
    norm_num at this
    simpa [outerRing, polygonRings, squareA, createTestPolygon] using this

/-- Witness for C24: the two-point ring [(0,0), (1,1)] and the closed square
[0,0]-[10,10], whose coordinates are integers of magnitude at most 10. -/
theorem C24_shoelace_area_witness :
    IsIntegerRing 10 (outerRing squareA) ∧
    2 * (outerRing squareA).length * 10 ^ 2 ≤ 2 ^ 53 ∧
    calculatePolygonArea [{ Lng := 0, Lat := 0 }, { Lng := 1, Lat := 1 }] = 0 ∧
    calculatePolygonArea (outerRing squareA) = shoelaceSum (outerRing squareA) ∧
    calculatePolygonArea (outerRing squareA).reverse = -calculatePolygonArea (outerRing squareA) ∧
    calculatePolygonArea (outerRing squareA) = 100 :=
  ⟨isIntegerRing_squareA, by decide,
    (C24_shoelace_area_on_integer_rings [{ Lng := 0, Lat := 0 }, { Lng := 1, Lat := 1 }]).1
      (by decide),
    ((C24_shoelace_area_on_integer_rings (outerRing squareA)).2.1 10 isIntegerRing_squareA
      (by decide)).1 (by decide),
    ((C24_shoelace_area_on_integer_rings (outerRing squareA)).2.1 10 isIntegerRing_squareA
      (by decide)).2,
    (C24_shoelace_area_on_integer_rings (outerRing squareA)).2.2.2⟩

/-- C25: for all polygons p and q, `intersectPolygons(p, q)` is nil exactly
when p or q has no rings, or the outer ring of p or q has no points, or their
outer-ring bounding boxes do not overlap; otherwise it returns the whole of p
if the signed shoelace area of p's outer ring is strictly less than that of
q's outer ring, and the whole of q otherwise (ties included). -/
theorem C25_intersectPolygons_behaviour (p q : List (List Point)) :
    (intersectPolygons p q = none ↔
      (p = [] ∨ q = [] ∨ p.headD [] = [] ∨ q.headD [] = [] ∨
        boundingBoxesIntersect (calculateBoundingBox (p.headD []))
          (calculateBoundingBox (q.headD [])) = false)) ∧
    (¬ (p = [] ∨ q = [] ∨ p.headD [] = [] ∨ q.headD [] = [] ∨
        boundingBoxesIntersect (calculateBoundingBox (p.headD []))
          (calculateBoundingBox (q.headD [])) = false) →
      intersectPolygons p q =
        some (if calculatePolygonArea (p.headD []) < calculatePolygonArea (q.headD []) then p
          else q)) := by
  cases p with
  | nil => simp [intersectPolygons]
  | cons outer1 holes1 =>
    cases q with
    | nil => simp [intersectPolygons]
    | cons outer2 holes2 =>
      simp only [intersectPolygons, List.headD_cons, List.length_eq_zero, reduceCtorEq, false_or]
      by_cases h0 : outer1 = [] ∨ outer2 = []
      · simp [h0]
        tauto
      · rw [if_neg h0]
        have h1 : outer1 ≠ [] := fun h => h0 (Or.inl h)
        have h2 : outer2 ≠ [] := fun h => h0 (Or.inr h)
        by_cases hb : boundingBoxesIntersect (calculateBoundingBox outer1)
            (calculateBoundingBox outer2) = true
        · simp only [h1, h2, hb, Bool.not_true, Bool.false_eq_true, if_false, false_or,
            Bool.true_eq_false, not_false_eq_true, true_implies]
          constructor
          · split_ifs <;> simp
          · split_ifs <;> rfl
        · have hb2 : boundingBoxesIntersect (calculateBoundingBox outer1)
              (calculateBoundingBox outer2) = false := by simpa using hb
          simp [hb2]

/-- Witness for C25: the empty polygon against the square [0,0]-[10,10], and
the two overlapping squares, whose areas tie. -/
theorem C25_intersectPolygons_witness :
    intersectPolygons [] (polygonRings squareA) = none ∧
    intersectPolygons (polygonRings squareA) (polygonRings squareB) =
      some (if calculatePolygonArea ((polygonRings squareA).headD []) <
          calculatePolygonArea ((polygonRings squareB).headD []) then polygonRings squareA
        else polygonRings squareB) :=
  ⟨(C25_intersectPolygons_behaviour [] (polygonRings squareA)).1.mpr (Or.inl rfl),
    (C25_intersectPolygons_behaviour (polygonRings squareA) (polygonRings squareB)).2 (by
      intro h
      have hn := (C25_intersectPolygons_behaviour (polygonRings squareA)
        (polygonRings squareB)).1.mpr h
      rw [intersectPolygons_squareA_squareB] at hn
      exact Option.noConfusion hn)⟩

/-- C26: for all polygon lists A and B, `calculateIntersection(A, B)` returns
no error and the list, in row-major order, of the non-nil values
`intersectPolygons(p, q)`; it returns nil exactly when that list is empty, and
the list never has more than |A|·|B| entries. -/
theorem C26_calculateIntersection_collects_pairs (A B : List (List (List Point))) :
    calculateIntersection A B =
      .ok (if pairwiseIntersections A B = [] then none else some (pairwiseIntersections A B)) ∧
    (calculateIntersection A B = .ok none ↔ pairwiseIntersections A B = []) ∧
    (pairwiseIntersections A B).length ≤ A.length * B.length := by
  have hc : calculateIntersection A B =
      .ok (if pairwiseIntersections A B = [] then none else some (pairwiseIntersections A B)) := by
    simp only [calculateIntersection, collectIntersections_eq_pairwise, List.length_eq_zero]
    split_ifs <;> rfl
  refine ⟨hc, ?_, ?_⟩
  · rw [hc]
    by_cases h : pairwiseIntersections A B = []
    · simp [h]
    · simp [h]
  · unfold pairwiseIntersections
    calc ((A.product B).filterMap fun pq => intersectPolygons pq.1 pq.2).length
        ≤ (A.product B).length := List.length_filterMap_le _ _
      _ = A.length * B.length := List.length_product A B

/-- C27 (the code departs from the claim): A is the square [0,0]-[10,10]
(signed area 100) and B the square [4,4]-[6,6] (signed area 4).
`Intersect(A, B)` returns the whole of B; with the outer ring of A reversed
(signed area -100) `Intersect` returns the whole of the reversed A: the winding
direction of A decides which of the two input regions is returned. -/
theorem C27_winding_direction_changes_the_result (lib : GeoLib)
    (hA : lib.ReadsPolygon squareA) (hR : lib.ReadsPolygon squareAReversed)
    (hF : lib.ReadsPolygon squareF) (hN : lib.BuildsFeature) :
    outerRing squareAReversed = (outerRing squareA).reverse ∧
    calculatePolygonArea (outerRing squareA) = 100 ∧
    calculatePolygonArea (outerRing squareAReversed) = -100 ∧
    calculatePolygonArea (outerRing squareF) = 4 ∧
    Intersect lib (.polygon squareA) (.polygon squareF) =
      .ok (some { ID := "", Bbox := [4, 4, 6, 6], Geometry := polygonGeometry squareF,
                  Properties := none }) ∧
    Intersect lib (.polygon squareAReversed) (.polygon squareF) =
      .ok (some { ID := "", Bbox := [0, 0, 10, 10], Geometry := polygonGeometry squareAReversed,
                  Properties := none }) := by
  refine ⟨by decide, ?_, ?_, ?_, ?_, ?_⟩
  · norm_num [outerRing, polygonRings, squareA, createTestPolygon, calculatePolygonArea, ringAt,
      List.range, List.range.loop]
  · norm_num [outerRing, polygonRings, squareAReversed, createTestPolygon, calculatePolygonArea,
      ringAt, List.range, List.range.loop]
  · norm_num [outerRing, polygonRings, squareF, createTestPolygon, calculatePolygonArea, ringAt,
      List.range, List.range.loop]
  · rw [Intersect_polygons_of_some lib squareA squareF squareF hA hF hN
      (by simp [polygonRings, squareF, createTestPolygon])
      intersectPolygons_squareA_squareF, calculateBoundingBox_squareF]
    rfl
  · rw [Intersect_polygons_of_some lib squareAReversed squareF squareAReversed hR hF hN
      (by simp [polygonRings, squareAReversed, createTestPolygon])
      intersectPolygons_squareAReversed_squareF, calculateBoundingBox_squareAReversed]
    rfl

/-- Witness for C27: the reference library satisfies the hypotheses. -/
theorem C27_winding_direction_witness :
    refLib.ReadsPolygon squareA ∧ refLib.ReadsPolygon squareAReversed ∧
    refLib.ReadsPolygon squareF ∧ refLib.BuildsFeature ∧
    Intersect refLib (.polygon squareA) (.polygon squareF) =
      .ok (some { ID := "", Bbox := [4, 4, 6, 6], Geometry := polygonGeometry squareF,
                  Properties := none }) ∧
    Intersect refLib (.polygon squareAReversed) (.polygon squareF) =
      .ok (some { ID := "", Bbox := [0, 0, 10, 10], Geometry := polygonGeometry squareAReversed,
                  Properties := none }) :=
  ⟨rfl, rfl, rfl, refLib_buildsFeature,
    (C27_winding_direction_changes_the_result refLib rfl rfl rfl refLib_buildsFeature).2.2.2.2.1,
    (C27_winding_direction_changes_the_result refLib rfl rfl rfl refLib_buildsFeature).2.2.2.2.2⟩

/-- C28 (counterexample): with two steps of radius 1 around the origin the
angles are 0 and `math.Pi`, every product and sum of the loop is exact, and
the ring is (1, 0), (-1, s), (1, 0) with s = sin `math.Pi` =
4851325781271 · 2⁻⁹⁵: the vertex (-1, s) has (x − 0)² + (y − 0)² = 1 + s²,
which is not 1², so it does not lie on the circle of radius 1 about the
origin. -/
theorem C28_half_turn_vertex_is_off_the_circle :
    generateCircleCoordinates halfTurnLib { Lng := 0, Lat := 0 } 1 2 =
      [{ Lng := 1, Lat := 0 }, { Lng := -1, Lat := sinOfPi }, { Lng := 1, Lat := 0 }] ∧
    ((-1 : ℚ) - 0) ^ 2 + (sinOfPi - 0) ^ 2 ≠ 1 ^ 2 := by
  constructor
  · rw [generateCircleCoordinates_eq halfTurnLib _ 1 2 1 (by norm_num)]
    norm_num [circlePoint, halfTurnLib, refCircleLib, refPi, List.range, List.range.loop]
  · norm_num [sinOfPi]

/-- C28 (amended): for every center C, degree-radius r and steps, when cos and
sin take values in [-1, 1], every vertex (x, y) of the circle ring lies in the
square that circumscribes the circle of radius |r| about C:
C.lng − |r| ≤ x ≤ C.lng + |r| and C.lat − |r| ≤ y ≤ C.lat + |r|. -/
theorem C28_vertices_lie_in_the_circumscribed_square (lib : CircleLib) (center : Point)
    (r : ℚ) (steps : Int) (hcos : ∀ x, -1 ≤ lib.Cos x ∧ lib.Cos x ≤ 1)
    (hsin : ∀ x, -1 ≤ lib.Sin x ∧ lib.Sin x ≤ 1) :
    ∀ p ∈ generateCircleCoordinates lib center r steps,
      center.Lng - |r| ≤ p.Lng ∧ p.Lng ≤ center.Lng + |r| ∧
      center.Lat - |r| ≤ p.Lat ∧ p.Lat ≤ center.Lat + |r| := by
  intro p hp
  obtain ⟨i, rfl⟩ := mem_generateCircleCoordinates lib center r steps p hp
  simp only [circlePoint]
  obtain ⟨c1, c2⟩ := hcos ((i : ℚ) * 2 * lib.Pi / (steps : ℚ))
  obtain ⟨s1, s2⟩ := hsin ((i : ℚ) * 2 * lib.Pi / (steps : ℚ))
  have hc : |r * lib.Cos ((i : ℚ) * 2 * lib.Pi / (steps : ℚ))| ≤ |r| := by
    rw [abs_mul]
    exact mul_le_of_le_one_right (abs_nonneg r) (abs_le.mpr ⟨c1, c2⟩)
  have hs : |r * lib.Sin ((i : ℚ) * 2 * lib.Pi / (steps : ℚ))| ≤ |r| := by
    rw [abs_mul]
    exact mul_le_of_le_one_right (abs_nonneg r) (abs_le.mpr ⟨s1, s2⟩)
  obtain ⟨hc1, hc2⟩ := abs_le.mp hc
  obtain ⟨hs1, hs2⟩ := abs_le.mp hs
  refine ⟨?_, ?_, ?_, ?_⟩ <;> linarith

/-- Witness for C28: radius -1, 8 steps around (1, 2) on the reference
library. -/
theorem C28_vertices_lie_in_the_square_witness :
    (∀ x, -1 ≤ refCircleLib.Cos x ∧ refCircleLib.Cos x ≤ 1) ∧
    (∀ x, -1 ≤ refCircleLib.Sin x ∧ refCircleLib.Sin x ≤ 1) ∧
    ∀ p ∈ generateCircleCoordinates refCircleLib { Lng := 1, Lat := 2 } (-1) 8,
      (1 : ℚ) - |(-1 : ℚ)| ≤ p.Lng ∧ p.Lng ≤ 1 + |(-1 : ℚ)| ∧
      (2 : ℚ) - |(-1 : ℚ)| ≤ p.Lat ∧ p.Lat ≤ 2 + |(-1 : ℚ)| :=
  ⟨refCircleLib_cos_bounds, refCircleLib_sin_bounds,
    C28_vertices_lie_in_the_circumscribed_square refCircleLib { Lng := 1, Lat := 2 } (-1) 8
      refCircleLib_cos_bounds refCircleLib_sin_bounds⟩

end Turf
